import Mathlib

/-!
Shallow embedding of the football-odds ingestion pipeline
(src/lib/services/match-storage.ts, src/lib/db/{leagues,teams,players,matches}.ts
and the day-by-day fetch scheduler) together with proofs about the
specification's claims.

Modelling conventions:
* JavaScript numbers that carry statistic values are modelled as rationals;
  ids are Nat, timestamps are Int epoch milliseconds (UTC, fixed-length days).
* `undefined`/absent optional fields are `Option.none`; JS string truthiness
  (empty string is falsy) is modelled explicitly.
* The SQLite store is a record of row lists plus autoincrement counters;
  every db helper returns the row the source returns plus the new store.
* drizzle semantics: an `update().set` entry whose value is undefined is
  skipped (the stored value is kept); SQL `eq(col, v)` never matches a stored
  NULL.
-/

/-- JS truthiness of an optional string: undefined and the empty string are falsy. -/
def jsTruthyStr (s : Option String) : Bool :=
  match s with
  | none => false
  | some str => str ≠ ""

/-- JS `a || b` on optional strings: keep `a` when it is truthy, else `b`. -/
def jsOrStr (a b : Option String) : Option String :=
  if jsTruthyStr a then a else b

/-- JS truthiness of a number-or-null: null and 0 are falsy. -/
def jsTruthyNum (n : Option Nat) : Bool :=
  match n with
  | none => false
  | some v => v ≠ 0

/-- Digits of a decimal literal to a natural number. -/
def digitsToNat (cs : List Char) : Nat :=
  cs.foldl (fun n c => 10 * n + (c.toNat - 48)) 0

/-- JS `parseInt` on the strings the feed emits: optional sign followed by
leading decimal digits; `none` models NaN (no leading digit). -/
def parseIntJS (s : String) : Option Int :=
  let cs := s.toList
  let signAndRest : Bool × List Char :=
    match cs with
    | '-' :: rest => (true, rest)
    | '+' :: rest => (false, rest)
    | _ => (false, cs)
  let neg := signAndRest.1
  let body := signAndRest.2
  let ds := body.takeWhile Char.isDigit
  if ds.isEmpty then none
  else
    let v : Int := (digitsToNat ds : Nat)
    some (if neg then -v else v)

/-- JS `parseFloat` on the decimal literals the feed emits: optional sign,
integer digits, optional fractional digits; trailing characters are ignored
and `none` models NaN. -/
def parseFloatJS (s : String) : Option ℚ :=
  let cs := s.toList
  let signAndRest : Bool × List Char :=
    match cs with
    | '-' :: rest => (true, rest)
    | '+' :: rest => (false, rest)
    | _ => (false, cs)
  let neg := signAndRest.1
  let body := signAndRest.2
  let intDigits := body.takeWhile Char.isDigit
  if intDigits.isEmpty then none
  else
    let rest := body.dropWhile Char.isDigit
    let ip : ℚ := (digitsToNat intDigits : Nat)
    let v : ℚ :=
      match rest with
      | '.' :: rest2 =>
        let fracDigits := rest2.takeWhile Char.isDigit
        ip + (digitsToNat fracDigits : Nat) / ((10 : ℚ) ^ fracDigits.length)
      | _ => ip
    some (if neg then -v else v)

/-- JS `String.prototype.includes` for a non-empty needle. -/
def jsIncludes (s sub : String) : Bool :=
  (s.splitOn sub).length ≥ 2

/-- JS `word.charAt(0).toUpperCase() + word.slice(1)`. -/
def titleCaseWord (w : String) : String :=
  match w.toList with
  | [] => ""
  | c :: rest => String.mk (c.toUpper :: rest)

/-- The regex replace of a leading `YYYY-YY-` season-year marker in
`parseLeagueName` (source regex: 4 digits, dash, 2 digits, dash). -/
def stripSeasonYear (s : String) : String :=
  match s.toList with
  | a :: b :: c :: d :: '-' :: e :: f :: '-' :: rest =>
    if [a, b, c, d, e, f].all Char.isDigit then String.mk rest else s
  | _ => s

/-- The fixed synonym table of match-storage.ts `parseLeagueName`. -/
def leagueMap : List (String × String) :=
  [("English Premier League", "Premier League"),
   ("Spanish La Liga", "La Liga"),
   ("Italian Serie A", "Serie A"),
   ("German Bundesliga", "Bundesliga"),
   ("French Ligue 1", "Ligue 1"),
   ("French Ligue 2", "Ligue 2"),
   ("Argentine Liga Professional", "Liga Professional"),
   ("Liga Professional", "Liga Professional"),
   ("Liga Profesional", "Liga Professional"),
   ("Liga Profesional De Futbol", "Liga Professional"),
   ("Liga Profesional Argentina", "Liga Professional"),
   ("Torneo Clausura", "Liga Professional"),
   ("Major League Soccer", "MLS")]

/-- match-storage.ts `parseLeagueName`: strip the year marker, title-case the
hyphen-separated words, then resolve through the synonym table. -/
def parseLeagueName (slug : String) : String :=
  if slug = "" then "Unknown League"
  else
    let withoutYear := stripSeasonYear slug
    let words := withoutYear.splitOn "-"
    let titleCase := String.intercalate " " (words.map titleCaseWord)
    match leagueMap.find? (fun p => p.1 == titleCase) with
    | some p => p.2
    | none => titleCase

/-- match-storage.ts `americanToDecimal`: positive american odds map to
`1 + odds/100`, non-positive to `1 + 100/|odds|`; unparseable odds are null. -/
def americanToDecimal (americanOdds : String) : Option ℚ :=
  match parseFloatJS americanOdds with
  | none => none
  | some odds =>
    if odds > 0 then some (1 + odds / 100)
    else some (1 + 100 / |odds|)

/-! ### Relational store (db/schema.ts plus the migration-added columns) -/

/-- Row of the `leagues` table. -/
structure LeagueRow where
  id : Nat
  name : String
  slug : Option String
  espnLeagueCode : Option String
deriving Repr, DecidableEq, Inhabited

/-- Row of the `teams` table. -/
structure TeamRow where
  id : Nat
  espnTeamId : String
  name : String
  abbreviation : Option String
  logoUrl : Option String
deriving Repr, DecidableEq, Inhabited

/-- Row of the `players` table. -/
structure PlayerRow where
  id : Nat
  espnPlayerId : String
  name : String
  position : Option String
deriving Repr, DecidableEq, Inhabited

/-- Row of the `matches` table. -/
structure MatchRow where
  id : Nat
  espnEventId : String
  leagueId : Option Nat
  homeTeamId : Nat
  awayTeamId : Nat
  date : Int
  venue : Option String
  status : String
  homeScore : Option Int
  awayScore : Option Int
deriving Repr, DecidableEq, Inhabited

/-- Row of the `match_players` appearance table. -/
structure MatchPlayerRow where
  id : Nat
  matchId : Nat
  playerId : Nat
  teamId : Nat
  isHome : Bool
deriving Repr, DecidableEq, Inhabited

/-- Row of the `match_odds` table. -/
structure MatchOddsRow where
  id : Nat
  matchId : Nat
  homeOdds : Option ℚ
  drawOdds : Option ℚ
  awayOdds : Option ℚ
  provider : Option String
deriving Repr, DecidableEq, Inhabited

/-- Row of the `match_statistics` table (with the card columns the
migrations add and lib/db/matches.ts writes). -/
structure MatchStatisticsRow where
  id : Nat
  matchId : Nat
  teamId : Nat
  possession : Option ℚ
  shots : Option ℚ
  shotsOnTarget : Option ℚ
  corners : Option ℚ
  fouls : Option ℚ
  yellowCards : ℚ
  redCards : ℚ
deriving Repr, DecidableEq, Inhabited

/-- Row of the `player_match_stats` table (with all migration-added columns,
which are NOT NULL DEFAULT 0). -/
structure PlayerMatchStatsRow where
  id : Nat
  matchId : Nat
  playerId : Nat
  teamId : Nat
  goals : ℚ
  shotsOnTarget : ℚ
  assists : ℚ
  passes : ℚ
  passesCompleted : ℚ
  tackles : ℚ
  interceptions : ℚ
  saves : ℚ
  yellowCards : ℚ
  redCards : ℚ
deriving Repr, DecidableEq, Inhabited

/-- The SQLite database: one list per table plus autoincrement counters
(the `matches` table is called `matchRows`: `matches` is a Lean keyword). -/
structure DBState where
  leagues : List LeagueRow
  teams : List TeamRow
  players : List PlayerRow
  matchRows : List MatchRow
  matchPlayers : List MatchPlayerRow
  matchOdds : List MatchOddsRow
  matchStatistics : List MatchStatisticsRow
  playerMatchStats : List PlayerMatchStatsRow
  nextLeagueId : Nat
  nextTeamId : Nat
  nextPlayerId : Nat
  nextMatchId : Nat
  nextMatchPlayerId : Nat
  nextMatchOddsId : Nat
  nextMatchStatisticsId : Nat
  nextPlayerMatchStatsId : Nat
deriving Repr, DecidableEq, Inhabited

/-- A freshly initialised database (SQLite autoincrement starts at 1). -/
def emptyDB : DBState :=
  { leagues := [], teams := [], players := [], matchRows := [], matchPlayers := []
    matchOdds := [], matchStatistics := [], playerMatchStats := []
    nextLeagueId := 1, nextTeamId := 1, nextPlayerId := 1, nextMatchId := 1
    nextMatchPlayerId := 1, nextMatchOddsId := 1, nextMatchStatisticsId := 1
    nextPlayerMatchStatsId := 1 }

/-- drizzle `update().set` skips fields whose value is undefined: an absent
input keeps the stored value. -/
def setOrKeep (newVal oldVal : Option α) : Option α :=
  match newVal with
  | some v => some v
  | none => oldVal

/-! ### Entity store and match repository (lib/db) -/

/-- Input of `upsertLeague` (lib/db/leagues.ts). -/
structure LeagueData where
  name : String
  slug : Option String
  espnLeagueCode : Option String

/-- The lookup key `data.espnLeagueCode || ""` of upsertLeague. -/
def leagueLookupKey (code : Option String) : String :=
  match code with
  | some c => c
  | none => ""

/-- lib/db/leagues.ts `upsertLeague`: look the league up by
`espnLeagueCode || ""` (SQL `eq` never matches a stored NULL); if found,
return it unchanged, else insert a new row carrying the raw (possibly
absent) code. -/
def upsertLeague (data : LeagueData) (s : DBState) : LeagueRow × DBState :=
  match s.leagues.find? (fun l =>
      l.espnLeagueCode == some (leagueLookupKey data.espnLeagueCode)) with
  | some row => (row, s)
  | none =>
    let row : LeagueRow :=
      { id := s.nextLeagueId, name := data.name, slug := data.slug
        espnLeagueCode := data.espnLeagueCode }
    (row, { s with leagues := s.leagues ++ [row], nextLeagueId := s.nextLeagueId + 1 })

/-- Input of `upsertTeam` (lib/db/teams.ts). -/
structure TeamData where
  espnTeamId : String
  name : String
  abbreviation : Option String
  logoUrl : Option String

/-- The field update of `upsertTeam`'s existing branch. -/
def teamUpdateFields (data : TeamData) (t : TeamRow) : TeamRow :=
  { t with
    name := data.name
    abbreviation := setOrKeep data.abbreviation t.abbreviation
    logoUrl := setOrKeep data.logoUrl t.logoUrl }

/-- lib/db/teams.ts `upsertTeam`: look the team up by `espnTeamId`; if found,
update its mutable identity fields (last-write-wins) and return the updated
row, else insert. -/
def upsertTeam (data : TeamData) (s : DBState) : TeamRow × DBState :=
  match s.teams.find? (fun t => t.espnTeamId == data.espnTeamId) with
  | some t0 =>
    (teamUpdateFields data t0,
     { s with
       teams := s.teams.map (fun t =>
         if t.espnTeamId == data.espnTeamId then teamUpdateFields data t else t) })
  | none =>
    let row : TeamRow :=
      { id := s.nextTeamId, espnTeamId := data.espnTeamId, name := data.name
        abbreviation := data.abbreviation, logoUrl := data.logoUrl }
    (row, { s with teams := s.teams ++ [row], nextTeamId := s.nextTeamId + 1 })

/-- Input of `upsertPlayer` (lib/db/players.ts). -/
structure PlayerData where
  espnPlayerId : String
  name : String
  position : Option String

/-- The field update of `upsertPlayer`'s existing branch. -/
def playerUpdateFields (data : PlayerData) (p : PlayerRow) : PlayerRow :=
  { p with
    name := data.name
    position := setOrKeep data.position p.position }

/-- lib/db/players.ts `upsertPlayer`: look the player up by `espnPlayerId`;
if found, update name/position (last-write-wins) and return the updated row,
else insert. -/
def upsertPlayer (data : PlayerData) (s : DBState) : PlayerRow × DBState :=
  match s.players.find? (fun p => p.espnPlayerId == data.espnPlayerId) with
  | some p0 =>
    (playerUpdateFields data p0,
     { s with
       players := s.players.map (fun p =>
         if p.espnPlayerId == data.espnPlayerId then playerUpdateFields data p else p) })
  | none =>
    let row : PlayerRow :=
      { id := s.nextPlayerId, espnPlayerId := data.espnPlayerId, name := data.name
        position := data.position }
    (row, { s with players := s.players ++ [row], nextPlayerId := s.nextPlayerId + 1 })

/-- Input of `upsertMatch` (lib/db/matches.ts); storeEvent always supplies
every field except `venue` (undefined is skipped on update). -/
structure MatchData where
  espnEventId : String
  leagueId : Option Nat
  homeTeamId : Nat
  awayTeamId : Nat
  date : Int
  venue : Option String
  status : String
  homeScore : Option Int
  awayScore : Option Int

/-- The field update of `upsertMatch`'s existing branch (full replacement;
only an undefined venue keeps the stored value). -/
def matchUpdateFields (data : MatchData) (m : MatchRow) : MatchRow :=
  { m with
    leagueId := data.leagueId
    homeTeamId := data.homeTeamId
    awayTeamId := data.awayTeamId
    date := data.date
    venue := setOrKeep data.venue m.venue
    status := data.status
    homeScore := data.homeScore
    awayScore := data.awayScore }

/-- lib/db/matches.ts `upsertMatch`, keyed by `espnEventId`. -/
def upsertMatch (data : MatchData) (s : DBState) : MatchRow × DBState :=
  match s.matchRows.find? (fun m => m.espnEventId == data.espnEventId) with
  | some m0 =>
    (matchUpdateFields data m0,
     { s with
       matchRows := s.matchRows.map (fun m =>
         if m.espnEventId == data.espnEventId then matchUpdateFields data m else m) })
  | none =>
    let row : MatchRow :=
      { id := s.nextMatchId, espnEventId := data.espnEventId, leagueId := data.leagueId
        homeTeamId := data.homeTeamId, awayTeamId := data.awayTeamId, date := data.date
        venue := data.venue, status := data.status
        homeScore := data.homeScore, awayScore := data.awayScore }
    (row, { s with matchRows := s.matchRows ++ [row], nextMatchId := s.nextMatchId + 1 })

/-- lib/db/matches.ts `getLatestMatchDate`: the maximal stored match date. -/
def getLatestMatchDate (s : DBState) : Option Int :=
  s.matchRows.foldl
    (fun acc m =>
      match acc with
      | none => some m.date
      | some d => some (max d m.date))
    none

/-- lib/db/matches.ts `insertMatchPlayer`: insert-if-absent keyed by
(matchId, playerId, teamId). -/
def insertMatchPlayer (matchId playerId teamId : Nat) (isHome : Bool) (s : DBState) :
    MatchPlayerRow × DBState :=
  match s.matchPlayers.find? (fun r =>
      r.matchId == matchId && r.playerId == playerId && r.teamId == teamId) with
  | some r => (r, s)
  | none =>
    let row : MatchPlayerRow :=
      { id := s.nextMatchPlayerId, matchId := matchId, playerId := playerId
        teamId := teamId, isHome := isHome }
    (row, { s with matchPlayers := s.matchPlayers ++ [row]
                   nextMatchPlayerId := s.nextMatchPlayerId + 1 })

/-- lib/db/matches.ts `insertMatchOdds`: append-only odds snapshot. -/
def insertMatchOdds (matchId : Nat) (homeOdds drawOdds awayOdds : Option ℚ)
    (provider : Option String) (s : DBState) : MatchOddsRow × DBState :=
  let row : MatchOddsRow :=
    { id := s.nextMatchOddsId, matchId := matchId, homeOdds := homeOdds
      drawOdds := drawOdds, awayOdds := awayOdds, provider := provider }
  (row, { s with matchOdds := s.matchOdds ++ [row]
                 nextMatchOddsId := s.nextMatchOddsId + 1 })

/-- Input of `insertMatchStatistics` (lib/db/matches.ts). -/
structure MatchStatisticsData where
  matchId : Nat
  teamId : Nat
  possession : Option ℚ
  shots : Option ℚ
  shotsOnTarget : Option ℚ
  corners : Option ℚ
  fouls : Option ℚ
  yellowCards : Option ℚ
  redCards : Option ℚ

/-- lib/db/matches.ts `insertMatchStatistics`: a PLAIN INSERT — no existence
check and no delete of prior rows for the same (match, team); the card
counts default to 0 via `??`. -/
def insertMatchStatistics (data : MatchStatisticsData) (s : DBState) :
    MatchStatisticsRow × DBState :=
  let row : MatchStatisticsRow :=
    { id := s.nextMatchStatisticsId, matchId := data.matchId, teamId := data.teamId
      possession := data.possession, shots := data.shots
      shotsOnTarget := data.shotsOnTarget, corners := data.corners, fouls := data.fouls
      yellowCards := data.yellowCards.getD 0, redCards := data.redCards.getD 0 }
  (row, { s with matchStatistics := s.matchStatistics ++ [row]
                 nextMatchStatisticsId := s.nextMatchStatisticsId + 1 })

/-- Input of `upsertPlayerMatchStats` (lib/db/matches.ts); storeEvent supplies
every statistic field. -/
structure PlayerMatchStatsData where
  matchId : Nat
  playerId : Nat
  teamId : Nat
  goals : Option ℚ
  shotsOnTarget : Option ℚ
  assists : Option ℚ
  passes : Option ℚ
  passesCompleted : Option ℚ
  tackles : Option ℚ
  interceptions : Option ℚ
  saves : Option ℚ
  yellowCards : Option ℚ
  redCards : Option ℚ

/-- The field update of `upsertPlayerMatchStats`' existing branch: each field
is replaced when supplied, else kept (`existing[0].x || 0` is the stored
value itself, the columns being NOT NULL). The teamId is not updated. -/
def pmsUpdateFields (data : PlayerMatchStatsData) (r : PlayerMatchStatsRow) :
    PlayerMatchStatsRow :=
  { r with
    goals := data.goals.getD r.goals
    shotsOnTarget := data.shotsOnTarget.getD r.shotsOnTarget
    assists := data.assists.getD r.assists
    passes := data.passes.getD r.passes
    passesCompleted := data.passesCompleted.getD r.passesCompleted
    tackles := data.tackles.getD r.tackles
    interceptions := data.interceptions.getD r.interceptions
    saves := data.saves.getD r.saves
    yellowCards := data.yellowCards.getD r.yellowCards
    redCards := data.redCards.getD r.redCards }

/-- lib/db/matches.ts `upsertPlayerMatchStats`: keyed by (matchId, playerId);
the existing branch REPLACES values (never accumulates), the insert branch
defaults absent statistics to 0 via `||`. -/
def upsertPlayerMatchStats (data : PlayerMatchStatsData) (s : DBState) :
    PlayerMatchStatsRow × DBState :=
  match s.playerMatchStats.find? (fun r =>
      r.matchId == data.matchId && r.playerId == data.playerId) with
  | some r0 =>
    (pmsUpdateFields data r0,
     { s with
       playerMatchStats := s.playerMatchStats.map (fun r =>
         if r.matchId == data.matchId && r.playerId == data.playerId then
           pmsUpdateFields data r
         else r) })
  | none =>
    let row : PlayerMatchStatsRow :=
      { id := s.nextPlayerMatchStatsId, matchId := data.matchId
        playerId := data.playerId, teamId := data.teamId
        goals := data.goals.getD 0, shotsOnTarget := data.shotsOnTarget.getD 0
        assists := data.assists.getD 0, passes := data.passes.getD 0
        passesCompleted := data.passesCompleted.getD 0, tackles := data.tackles.getD 0
        interceptions := data.interceptions.getD 0, saves := data.saves.getD 0
        yellowCards := data.yellowCards.getD 0, redCards := data.redCards.getD 0 }
    (row, { s with playerMatchStats := s.playerMatchStats ++ [row]
                   nextPlayerMatchStatsId := s.nextPlayerMatchStatsId + 1 })

/-! ### Feed payload (lib/types/espn.ts, restricted to the fields storeEvent
reads; fields the code reaches through optional chaining are Options, and
absent arrays are modelled as the empty list the code normalises them to). -/

/-- The slice of the season object storeEvent reads (`season?.slug`,
`season?.type?.toString()`). -/
structure ESPNSeason where
  type : Option Int
  slug : Option String
deriving Repr, DecidableEq, Inhabited

/-- status.type: completion flag and state string. -/
structure ESPNStatusType where
  state : String
  completed : Bool
deriving Repr, DecidableEq, Inhabited

/-- Competition status. -/
structure ESPNStatus where
  type : ESPNStatusType
deriving Repr, DecidableEq, Inhabited

/-- Venue names. -/
structure ESPNVenue where
  fullName : Option String
  displayName : Option String
deriving Repr, DecidableEq, Inhabited

/-- A competitor's team object. -/
structure ESPNTeam where
  id : String
  displayName : String
  abbreviation : String
  logo : String
deriving Repr, DecidableEq, Inhabited

/-- The team reference attached to an athlete (`athlete.team?.id`). -/
structure ESPNAthleteTeam where
  id : String
deriving Repr, DecidableEq, Inhabited

/-- An athlete as it appears in statistics lists and play-by-play details.
`value`, `stat` and `displayValue` are the alternative per-athlete value
fields `extractPlayerValue` probes. -/
structure ESPNAthlete where
  id : String
  displayName : String
  position : Option String
  team : Option ESPNAthleteTeam
  value : Option ℚ
  stat : Option ℚ
  displayValue : Option String
deriving Repr, DecidableEq, Inhabited

/-- A named team statistic, optionally carrying a ranked athlete list. -/
structure ESPNStatistic where
  name : Option String
  abbreviation : Option String
  displayValue : String
  athletes : Option (List ESPNAthlete)
deriving Repr, DecidableEq, Inhabited

/-- A competitor: side tag, score string, team and statistics. -/
structure ESPNCompetitor where
  homeAway : String
  score : Option String
  team : ESPNTeam
  statistics : Option (List ESPNStatistic)
deriving Repr, DecidableEq, Inhabited

/-- The team reference attached to a play-by-play detail (`detail.team?.id`). -/
structure ESPNDetailTeam where
  id : String
deriving Repr, DecidableEq, Inhabited

/-- A play-by-play detail entry. -/
structure ESPNEventDetail where
  team : Option ESPNDetailTeam
  scoringPlay : Bool
  redCard : Bool
  yellowCard : Bool
  penaltyKick : Bool
  ownGoal : Bool
  athletesInvolved : Option (List ESPNAthlete)
deriving Repr, DecidableEq, Inhabited

/-- A current odds value (`…?.current?.odds`). -/
structure ESPNOddsCurrent where
  odds : String
deriving Repr, DecidableEq, Inhabited

/-- One side of the moneyline block. -/
structure ESPNMoneylineSide where
  current : Option ESPNOddsCurrent
deriving Repr, DecidableEq, Inhabited

/-- The moneyline block. -/
structure ESPNMoneyline where
  home : Option ESPNMoneylineSide
  away : Option ESPNMoneylineSide
  draw : Option ESPNMoneylineSide
deriving Repr, DecidableEq, Inhabited

/-- The odds provider (`odds.provider?.name`). -/
structure ESPNOddsProvider where
  name : String
deriving Repr, DecidableEq, Inhabited

/-- One entry of `competition.odds`. -/
structure ESPNOddsItem where
  provider : Option ESPNOddsProvider
  moneyline : Option ESPNMoneyline
deriving Repr, DecidableEq, Inhabited

/-- A competition: the slice of `competitions[0]` storeEvent reads. -/
structure ESPNCompetition where
  status : Option ESPNStatus
  venue : Option ESPNVenue
  competitors : List ESPNCompetitor
  details : Option (List ESPNEventDetail)
  odds : List ESPNOddsItem
deriving Repr, DecidableEq, Inhabited

/-- A raw feed event (`event.date` is already the epoch-millisecond value
`new Date(event.date)` yields). -/
structure ESPNEvent where
  id : String
  date : Int
  season : Option ESPNSeason
  competitions : List ESPNCompetition
deriving Repr, DecidableEq, Inhabited

/-! ### The in-memory player statistics map of storeEvent

`playerStatsMap` is a JS `Map` keyed by the string `playerId-matchId`; the
match id is fixed within one storeEvent call, so the key is the player id.
JS `Map.set` replaces in place or appends, preserving insertion order, and
`Map.get` hands out the object that in-place `+=` mutations update. -/

/-- The accumulated per-player record stored in `playerStatsMap`. -/
structure PStat where
  playerId : Nat
  teamId : Nat
  goals : ℚ
  shotsOnTarget : ℚ
  assists : ℚ
  passes : ℚ
  passesCompleted : ℚ
  tackles : ℚ
  interceptions : ℚ
  saves : ℚ
  yellowCards : ℚ
  redCards : ℚ
deriving Repr, DecidableEq, Inhabited

/-- playerStatsMap as an insertion-ordered association list. -/
abbrev PStatMap := List (Nat × PStat)

/-- JS `Map.has`. -/
def pmapHas (m : PStatMap) (k : Nat) : Bool :=
  (m.find? (fun e => e.1 == k)).isSome

/-- JS `Map.set`: replace the entry in place, else append. -/
def pmapSet (m : PStatMap) (k : Nat) (v : PStat) : PStatMap :=
  match m with
  | [] => [(k, v)]
  | e :: rest => if e.1 == k then (k, v) :: rest else e :: pmapSet rest k v

/-- An in-place mutation of the object `Map.get` returns. -/
def pmapUpdate (m : PStatMap) (k : Nat) (f : PStat → PStat) : PStatMap :=
  match m with
  | [] => []
  | e :: rest => if e.1 == k then (e.1, f e.2) :: rest else e :: pmapUpdate rest k f

/-- The all-zero record the source inserts before accumulating. -/
def zeroPStat (playerId teamId : Nat) : PStat :=
  { playerId := playerId, teamId := teamId, goals := 0, shotsOnTarget := 0
    assists := 0, passes := 0, passesCompleted := 0, tackles := 0
    interceptions := 0, saves := 0, yellowCards := 0, redCards := 0 }

/-! ### storeEvent (lib/services/match-storage.ts) -/

/-- match-storage.ts `extractPlayerValue`: explicit `value`, else explicit
`stat`, else a parseable `displayValue`, else the sentinel 1 ("present in
this ranked list means at least one occurrence"). -/
def extractPlayerValue (athlete : ESPNAthlete) : ℚ :=
  match athlete.value with
  | some v => v
  | none =>
    match athlete.stat with
    | some v => v
    | none =>
      match athlete.displayValue with
      | some dv =>
        if dv ≠ "" then
          match parseFloatJS dv with
          | some pv => pv
          | none => 1
        else 1
      | none => 1

/-- The substring-matching statistic classification chain of storeEvent step 5
(`statName`/`statAbbr` are already lower-cased); the recognised field takes
`max` of the current and new value. -/
def classifyStat (statName statAbbr : String) (v : ℚ) (p : PStat) : PStat :=
  if (jsIncludes statName "shot" && jsIncludes statName "target")
      || jsIncludes statAbbr "sot"
      || statName == "shotsontarget"
      || statName == "shots on target" then
    { p with shotsOnTarget := max p.shotsOnTarget v }
  else if jsIncludes statName "assist" || jsIncludes statAbbr "ast" || statAbbr == "a" then
    { p with assists := max p.assists v }
  else if (jsIncludes statName "pass" && !jsIncludes statName "complete")
      || jsIncludes statAbbr "pass" then
    { p with passes := max p.passes v }
  else if (jsIncludes statName "pass" && jsIncludes statName "complete")
      || jsIncludes statName "completed pass"
      || jsIncludes statAbbr "comp" then
    { p with passesCompleted := max p.passesCompleted v }
  else if jsIncludes statName "tackle" || jsIncludes statAbbr "tkl" || statAbbr == "tk" then
    { p with tackles := max p.tackles v }
  else if jsIncludes statName "intercept" || jsIncludes statAbbr "int" || statAbbr == "i" then
    { p with interceptions := max p.interceptions v }
  else if jsIncludes statName "save" || jsIncludes statAbbr "sv" || statAbbr == "s" then
    { p with saves := max p.saves v }
  else p

/-- One statistics-list athlete of storeEvent step 5: upsert the player,
record the appearance, seed the map entry, classify the statistic. Athletes
whose id is falsy are skipped. -/
def processStatAthlete (matchId teamId : Nat) (isHome : Bool)
    (statName statAbbr : String) (athlete : ESPNAthlete)
    (acc : DBState × PStatMap) : DBState × PStatMap :=
  if athlete.id ≠ "" then
    let playerRes := upsertPlayer
      { espnPlayerId := athlete.id, name := athlete.displayName
        position := athlete.position } acc.1
    let player := playerRes.1
    let s1 := (insertMatchPlayer matchId player.id teamId isHome playerRes.2).2
    let pmap1 :=
      if pmapHas acc.2 player.id then acc.2
      else pmapSet acc.2 player.id (zeroPStat player.id teamId)
    let v := extractPlayerValue athlete
    (s1, pmapUpdate pmap1 player.id (classifyStat statName statAbbr v))
  else acc

/-- The statistics loop of storeEvent step 5 for one competitor. -/
def processCompetitorStats (matchId homeTeamId awayTeamId : Nat)
    (competitor : ESPNCompetitor) (acc : DBState × PStatMap) : DBState × PStatMap :=
  let isHome := competitor.homeAway == "home"
  let teamId := if isHome then homeTeamId else awayTeamId
  match competitor.statistics with
  | none => acc
  | some stats =>
    stats.foldl
      (fun acc stat =>
        match stat.athletes with
        | none => acc
        | some athletes =>
          let statName := (stat.name.getD "").toLower
          let statAbbr := (stat.abbreviation.getD "").toLower
          athletes.foldl
            (fun acc athlete =>
              processStatAthlete matchId teamId isHome statName statAbbr athlete acc)
            acc)
      acc

/-- The `athlete.id && athlete.team?.id` guard plus the competitor lookup of
the details loop: the competitor this involved athlete resolves to, if any. -/
def resolveAthleteCompetitor (competitors : List ESPNCompetitor)
    (athlete : ESPNAthlete) : Option ESPNCompetitor :=
  if athlete.id ≠ "" then
    match athlete.team with
    | some t =>
      if t.id ≠ "" then competitors.find? (fun c => c.team.id == t.id) else none
    | none => none
  else none

/-- Goal crediting in the details loop: bump the existing entry's goals, else
create a fresh entry with one goal. -/
def bumpGoal (playerId teamId : Nat) (pmap : PStatMap) : PStatMap :=
  if pmapHas pmap playerId then
    pmapUpdate pmap playerId (fun p => { p with goals := p.goals + 1 })
  else
    pmapSet pmap playerId { zeroPStat playerId teamId with goals := 1 }

/-- Assist crediting in the details loop. -/
def bumpAssist (playerId teamId : Nat) (pmap : PStatMap) : PStatMap :=
  if pmapHas pmap playerId then
    pmapUpdate pmap playerId (fun p => { p with assists := p.assists + 1 })
  else
    pmapSet pmap playerId { zeroPStat playerId teamId with assists := 1 }

/-- Card crediting in the details loop: ensure an entry exists, then bump
yellow and red as flagged. -/
def bumpPlayerCards (yellow red : Bool) (playerId teamId : Nat)
    (pmap : PStatMap) : PStatMap :=
  if yellow || red then
    let pmap1 :=
      if pmapHas pmap playerId then pmap
      else pmapSet pmap playerId (zeroPStat playerId teamId)
    let pmap2 :=
      if yellow then
        pmapUpdate pmap1 playerId (fun p => { p with yellowCards := p.yellowCards + 1 })
      else pmap1
    if red then
      pmapUpdate pmap2 playerId (fun p => { p with redCards := p.redCards + 1 })
    else pmap2
  else pmap

/-- One involved athlete of one play-by-play detail (storeEvent lines
273-373): resolve the athlete to a competitor, upsert the player, record the
appearance, then credit goal (first athlete of a clean scoring play), assist
(second athlete) and cards (every involved athlete). -/
def processDetailAthlete (matchId homeTeamId awayTeamId : Nat)
    (competitors : List ESPNCompetitor) (detail : ESPNEventDetail)
    (isGoal : Bool) (numInvolved : Nat) (i : Nat) (athlete : ESPNAthlete)
    (acc : DBState × PStatMap) : DBState × PStatMap :=
  match resolveAthleteCompetitor competitors athlete with
  | none => acc
  | some athleteTeam =>
    let isHome := athleteTeam.homeAway == "home"
    let teamId := if isHome then homeTeamId else awayTeamId
    let playerRes := upsertPlayer
      { espnPlayerId := athlete.id, name := athlete.displayName
        position := athlete.position } acc.1
    let player := playerRes.1
    let s1 := (insertMatchPlayer matchId player.id teamId isHome playerRes.2).2
    let pmap1 := if isGoal && i == 0 then bumpGoal player.id teamId acc.2 else acc.2
    let pmap2 :=
      if isGoal && i == 1 && numInvolved > 1 then bumpAssist player.id teamId pmap1
      else pmap1
    let pmap3 := bumpPlayerCards detail.yellowCard detail.redCard player.id teamId pmap2
    (s1, pmap3)

/-- One play-by-play detail of storeEvent (lines 266-376): a clean scoring
play is one not flagged ownGoal or penaltyKick; the athletes are walked with
their index. -/
def processDetail (matchId homeTeamId awayTeamId : Nat)
    (competitors : List ESPNCompetitor) (detail : ESPNEventDetail)
    (acc : DBState × PStatMap) : DBState × PStatMap :=
  match detail.athletesInvolved with
  | none => acc
  | some involved =>
    involved.enum.foldl
      (fun acc ia =>
        processDetailAthlete matchId homeTeamId awayTeamId competitors detail
          (detail.scoringPlay && !detail.ownGoal && !detail.penaltyKick)
          involved.length ia.1 ia.2 acc)
      acc

/-- The per-team card tally object of storeEvent step 7. -/
structure TeamCards where
  yellowCards : ℚ
  redCards : ℚ
deriving Repr, DecidableEq, Inhabited

/-- teamCardsMap as an insertion-ordered association list. -/
abbrev TeamCardsMap := List (Nat × TeamCards)

/-- JS `Map.get` on the team cards map (first-match lookup; keys are unique
by construction). -/
def tcmGet (m : TeamCardsMap) (k : Nat) : Option TeamCards :=
  match m with
  | [] => none
  | e :: rest => if e.1 == k then some e.2 else tcmGet rest k

/-- JS `Map.set` on the team cards map. -/
def tcmSet (m : TeamCardsMap) (k : Nat) (v : TeamCards) : TeamCardsMap :=
  match m with
  | [] => [(k, v)]
  | e :: rest => if e.1 == k then (k, v) :: rest else e :: tcmSet rest k v

/-- An in-place mutation of the object `Map.get` returns. -/
def tcmUpdate (m : TeamCardsMap) (k : Nat) (f : TeamCards → TeamCards) : TeamCardsMap :=
  match m with
  | [] => []
  | e :: rest => if e.1 == k then (e.1, f e.2) :: rest else e :: tcmUpdate rest k f

/-- The team-id resolution shared by both attribution attempts of storeEvent
step 7: a truthy external team id is looked up among the competitors and
mapped to the home or away internal id. -/
def competitorTeamId (competitors : List ESPNCompetitor) (homeTeamId awayTeamId : Nat)
    (tid : String) : Option Nat :=
  if tid ≠ "" then
    match competitors.find? (fun c => c.team.id == tid) with
    | some athleteTeam =>
      some (if athleteTeam.homeAway == "home" then homeTeamId else awayTeamId)
    | none => none
  else none

/-- The first attribution attempt of storeEvent step 7: resolve the card's
team via `detail.team?.id`. -/
def detailTeamResolution (competitors : List ESPNCompetitor)
    (homeTeamId awayTeamId : Nat) (detail : ESPNEventDetail) : Option Nat :=
  match detail.team with
  | some dt => competitorTeamId competitors homeTeamId awayTeamId dt.id
  | none => none

/-- The combined attribution of storeEvent step 7 before the final truthiness
check: when the `detail.team` resolution is JS-falsy (null or the id 0), fall
back to the first involved athlete's team, keeping the falsy value when the
fallback fails itself. -/
def detailCardTeamRaw (competitors : List ESPNCompetitor)
    (homeTeamId awayTeamId : Nat) (detail : ESPNEventDetail) : Option Nat :=
  if !jsTruthyNum (detailTeamResolution competitors homeTeamId awayTeamId detail) then
    match detail.athletesInvolved with
    | some (athlete :: _) =>
      (match athlete.team with
       | some t =>
         (match competitorTeamId competitors homeTeamId awayTeamId t.id with
          | some u => some u
          | none => detailTeamResolution competitors homeTeamId awayTeamId detail)
       | none => detailTeamResolution competitors homeTeamId awayTeamId detail)
    | _ => detailTeamResolution competitors homeTeamId awayTeamId detail
  else detailTeamResolution competitors homeTeamId awayTeamId detail

/-- The team-attribution of one card detail in storeEvent step 7: the detail
is counted only when the final `teamId` is truthy (`if (teamId)`); returns
the internal team id credited, or none when the detail is not counted. -/
def detailCardTeam (competitors : List ESPNCompetitor) (homeTeamId awayTeamId : Nat)
    (detail : ESPNEventDetail) : Option Nat :=
  if jsTruthyNum (detailCardTeamRaw competitors homeTeamId awayTeamId detail) then
    detailCardTeamRaw competitors homeTeamId awayTeamId detail
  else none

/-- storeEvent step 7: the card tally map seeded with zero entries for the
home and away teams. -/
def cardsBase (homeTeamId awayTeamId : Nat) : TeamCardsMap :=
  tcmSet (tcmSet [] homeTeamId ⟨0, 0⟩) awayTeamId ⟨0, 0⟩

/-- The two card-count mutations of one counted detail on the tally map. -/
def bumpTeamCards (yellow red : Bool) (t : Nat) (m : TeamCardsMap) : TeamCardsMap :=
  if red then
    tcmUpdate
      (if yellow then
        tcmUpdate m t (fun c => { c with yellowCards := c.yellowCards + 1 })
      else m)
      t (fun c => { c with redCards := c.redCards + 1 })
  else
    (if yellow then
      tcmUpdate m t (fun c => { c with yellowCards := c.yellowCards + 1 })
    else m)

/-- storeEvent step 7: tally yellow/red cards per team over the details,
starting from the seeded zero entries; a detail with no card flags is
skipped, one whose team cannot be attributed is not counted. -/
def countTeamCards (competitors : List ESPNCompetitor) (homeTeamId awayTeamId : Nat)
    (details : List ESPNEventDetail) : TeamCardsMap :=
  details.foldl
    (fun m detail =>
      if !detail.yellowCard && !detail.redCard then m
      else
        match detailCardTeam competitors homeTeamId awayTeamId detail with
        | none => m
        | some t => bumpTeamCards detail.yellowCard detail.redCard t m)
    (cardsBase homeTeamId awayTeamId)

/-- The accumulator of the named-statistic scan in storeEvent step 8. -/
structure TeamStatAcc where
  possession : Option ℚ
  shots : Option ℚ
  shotsOnTarget : Option ℚ
  corners : Option ℚ
  fouls : Option ℚ
deriving Repr, DecidableEq, Inhabited

/-- storeEvent step 8 for one competitor: scan the named statistics
(unparseable display values are skipped, unrecognised names ignored) and
insert a team-level statistics row; with no statistics list, a row carrying
only the card counts is still inserted. The card tally is read with `get!`,
always seeded for both teams. -/
def storeCompetitorStatistics (matchId homeTeamId awayTeamId : Nat)
    (cardsMap : TeamCardsMap) (competitor : ESPNCompetitor) (s : DBState) : DBState :=
  let isHome := competitor.homeAway == "home"
  let teamId := if isHome then homeTeamId else awayTeamId
  let cards := (tcmGet cardsMap teamId).getD ⟨0, 0⟩
  match competitor.statistics with
  | some stats =>
    let acc := stats.foldl
      (fun (acc : TeamStatAcc) stat =>
        match parseFloatJS stat.displayValue with
        | none => acc
        | some value =>
          if stat.name == some "possessionPct" then { acc with possession := some value }
          else if stat.name == some "totalShots" then { acc with shots := some value }
          else if stat.name == some "shotsOnTarget" then
            { acc with shotsOnTarget := some value }
          else if stat.name == some "wonCorners" then { acc with corners := some value }
          else if stat.name == some "foulsCommitted" then { acc with fouls := some value }
          else acc)
      ⟨none, none, none, none, none⟩
    (insertMatchStatistics
      { matchId := matchId, teamId := teamId, possession := acc.possession
        shots := acc.shots, shotsOnTarget := acc.shotsOnTarget
        corners := acc.corners, fouls := acc.fouls
        yellowCards := some cards.yellowCards, redCards := some cards.redCards } s).2
  | none =>
    (insertMatchStatistics
      { matchId := matchId, teamId := teamId, possession := none, shots := none
        shotsOnTarget := none, corners := none, fouls := none
        yellowCards := some cards.yellowCards, redCards := some cards.redCards } s).2

/-- The fully-populated upsert payload storeEvent builds from one
accumulated map entry (every statistic field supplied). -/
def pmsDataOf (matchId : Nat) (st : PStat) : PlayerMatchStatsData :=
  { matchId := matchId, playerId := st.playerId, teamId := st.teamId
    goals := some st.goals, shotsOnTarget := some st.shotsOnTarget
    assists := some st.assists, passes := some st.passes
    passesCompleted := some st.passesCompleted, tackles := some st.tackles
    interceptions := some st.interceptions, saves := some st.saves
    yellowCards := some st.yellowCards, redCards := some st.redCards }

/-- The final phase of storeEvent (lines 513-536): delete every
PlayerMatchStats row of this match, then insert fresh rows from the
accumulated map in insertion order. -/
def storePlayerStatsPhase (matchId : Nat) (pmap : PStatMap) (s : DBState) : DBState :=
  let s0 := { s with
    playerMatchStats := s.playerMatchStats.filter (fun r => !(r.matchId == matchId)) }
  pmap.foldl
    (fun s kv => (upsertPlayerMatchStats (pmsDataOf matchId kv.2) s).2)
    s0

/-- The side of the score-string parse storeEvent performs for each
competitor: `competitor.score ? parseInt(competitor.score) : null` — the
string is parsed whenever it is truthy (non-empty). -/
def parseScore (score : Option String) : Option Int :=
  if jsTruthyStr score then parseIntJS (score.getD "") else none

/-- The moneyline extraction: `side?.current?.odds` must be truthy, then the
american odds string is converted. -/
def moneylineOdds (side : Option ESPNMoneylineSide) : Option ℚ :=
  match side.bind (fun ml => ml.current) with
  | some cur => if cur.odds ≠ "" then americanToDecimal cur.odds else none
  | none => none

/-- match-storage.ts `storeEvent`: the full ingestion of one raw feed event,
as a transformation of the store. Early exits: no competition, fewer than
two competitors (before any write), or no home/away competitor (after the
league upsert only). -/
def storeEvent (event : ESPNEvent) (s : DBState) : DBState :=
  match event.competitions with
  | [] => s
  | competition :: _ =>
    let competitors := competition.competitors
    if competitors.length < 2 then s
    else
      let leagueSlug := (event.season.bind (fun se => se.slug)).getD ""
      let leagueName := parseLeagueName leagueSlug
      let leagueRes := upsertLeague
        { name := leagueName, slug := some leagueSlug
          espnLeagueCode := (event.season.bind (fun se => se.type)).map (fun t => toString t) } s
      let league := leagueRes.1
      let s1 := leagueRes.2
      match competitors.find? (fun c => c.homeAway == "home"),
            competitors.find? (fun c => c.homeAway == "away") with
      | some homeCompetitor, some awayCompetitor =>
        let homeRes := upsertTeam
          { espnTeamId := homeCompetitor.team.id, name := homeCompetitor.team.displayName
            abbreviation := some homeCompetitor.team.abbreviation
            logoUrl := some homeCompetitor.team.logo } s1
        let homeTeam := homeRes.1
        let awayRes := upsertTeam
          { espnTeamId := awayCompetitor.team.id, name := awayCompetitor.team.displayName
            abbreviation := some awayCompetitor.team.abbreviation
            logoUrl := some awayCompetitor.team.logo } homeRes.2
        let awayTeam := awayRes.1
        let s2 := awayRes.2
        let statusType := competition.status.map (fun st => st.type)
        let isCompleted := (statusType.map (fun st => st.completed)).getD false
        let status :=
          if isCompleted then "completed"
          else if (statusType.map (fun st => st.state)) == some "in" then "live"
          else "scheduled"
        let matchRes := upsertMatch
          { espnEventId := event.id, leagueId := some league.id
            homeTeamId := homeTeam.id, awayTeamId := awayTeam.id, date := event.date
            venue := jsOrStr (competition.venue.bind (fun v => v.fullName))
              (competition.venue.bind (fun v => v.displayName))
            status := status
            homeScore := parseScore homeCompetitor.score
            awayScore := parseScore awayCompetitor.score } s2
        let theMatch := matchRes.1
        let s3 := matchRes.2
        let statsAcc := competitors.foldl
          (fun acc c => processCompetitorStats theMatch.id homeTeam.id awayTeam.id c acc)
          (s3, ([] : PStatMap))
        let detailsAcc := (competition.details.getD []).foldl
          (fun acc d => processDetail theMatch.id homeTeam.id awayTeam.id competitors d acc)
          statsAcc
        let s4 := detailsAcc.1
        let pmap := detailsAcc.2
        let s5 :=
          match competition.odds with
          | [] => s4
          | oddsItem :: _ =>
            match oddsItem.moneyline with
            | none => s4
            | some ml =>
              (insertMatchOdds theMatch.id (moneylineOdds ml.home) (moneylineOdds ml.draw)
                (moneylineOdds ml.away) (oddsItem.provider.map (fun p => p.name)) s4).2
        let cardsMap := countTeamCards competitors homeTeam.id awayTeam.id
          (competition.details.getD [])
        let s6 := competitors.foldl
          (fun s c => storeCompetitorStatistics theMatch.id homeTeam.id awayTeam.id cardsMap c s)
          s5
        storePlayerStatsPhase theMatch.id pmap s6
      | _, _ => s1

/-- match-storage.ts `storeEvents`: events are processed sequentially (the
per-event try/catch never fires in this total model). -/
def storeEvents (events : List ESPNEvent) (s : DBState) : DBState :=
  events.foldl (fun s e => storeEvent e s) s

/-! ### Read side: getTeamStats (lib/db/teams.ts) -/

/-- The aggregate getTeamStats returns. -/
structure TeamStats where
  wins : Nat
  draws : Nat
  losses : Nat
  goalsScored : Int
  goalsConceded : Int
  points : Nat
  shotsOnTarget : ℚ
  corners : ℚ
deriving Repr, DecidableEq, Inhabited

/-- lib/db/teams.ts `getTeamStats`: walk the team's matches, skipping any
whose status is not "completed" or whose scores are null, tallying
win/draw/loss and goals; then sum shots-on-target and corners over the
team's match_statistics rows (SQL SUM ignores NULLs, and `Number(..) || 0`
turns an empty sum into 0). -/
def getTeamStats (teamId : Nat) (s : DBState) : TeamStats :=
  let teamMatches := s.matchRows.filter
    (fun m => m.homeTeamId == teamId || m.awayTeamId == teamId)
  let tally := teamMatches.foldl
    (fun (acc : Nat × Nat × Nat × Int × Int) m =>
      match m.homeScore, m.awayScore with
      | some hs, some ascore =>
        if m.status ≠ "completed" then acc
        else
          let isHome := m.homeTeamId == teamId
          let teamScore := if isHome then hs else ascore
          let oppScore := if isHome then ascore else hs
          let gs := acc.2.2.2.1 + teamScore
          let gc := acc.2.2.2.2 + oppScore
          if teamScore > oppScore then (acc.1 + 1, acc.2.1, acc.2.2.1, gs, gc)
          else if teamScore == oppScore then (acc.1, acc.2.1 + 1, acc.2.2.1, gs, gc)
          else (acc.1, acc.2.1, acc.2.2.1 + 1, gs, gc)
      | _, _ => acc)
    (0, 0, 0, 0, 0)
  let statRows := s.matchStatistics.filter (fun r => r.teamId == teamId)
  let totalSot := (statRows.filterMap (fun r => r.shotsOnTarget)).foldl (fun a b => a + b) 0
  let totalCorners := (statRows.filterMap (fun r => r.corners)).foldl (fun a b => a + b) 0
  { wins := tally.1, draws := tally.2.1, losses := tally.2.2.1
    goalsScored := tally.2.2.2.1, goalsConceded := tally.2.2.2.2
    points := tally.1 * 3 + tally.2.1
    shotsOnTarget := totalSot, corners := totalCorners }

/-! ### Ingestion scheduler (fetchPastGames of the auto-fetch module)

Dates are epoch milliseconds in UTC with fixed-length days, so
`setHours(0,0,0,0)` floors to a day multiple and `setDate(getDate()+1)`
adds one day. -/

/-- Milliseconds per day. -/
def msPerDay : Int := 86400000

/-- `date.setHours(0, 0, 0, 0)` on a nonnegative epoch timestamp. -/
def floorDay (t : Int) : Int :=
  (t / msPerDay) * msPerDay

/-- JS `Math.ceil(a / b)` for integer `a` and positive integer `b`. -/
def jsCeilDiv (a b : Int) : Int :=
  -(Int.fdiv (-a) b)

/-- The day enumeration of `fetchPastGames`: start 90 days back when nothing
is stored, else the day after the latest stored match (floored to midnight);
bail out when the start lies after today; `daysDiff` is the ceiled day
difference to today, capped at 90; the loop walks `dayOffset` from 0 while
`targetDate > today` has not fired. Returns the UTC-midnight timestamps the
loop fetches, in order. -/
def backfillDays (latestMatchDate : Option Int) (now : Int) : List Int :=
  let today := floorDay now
  let start? : Option Int :=
    match latestMatchDate with
    | none => some (today - 90 * msPerDay)
    | some latest =>
      let startDate := floorDay latest + msPerDay
      if startDate > today then none else some startDate
  match start? with
  | none => []
  | some startDate =>
    let daysDiff := jsCeilDiv (today - startDate) msPerDay
    if daysDiff ≤ 0 then []
    else
      let maxDays := min daysDiff 90
      ((List.range maxDays.toNat).map (fun k => startDate + k * msPerDay)).takeWhile
        (fun d => decide (d ≤ today))

/-- The per-day fetch loop shared by fetchPastGames: one fetch attempt per
enumerated day; a successful response with events is stored, an error is
logged and the loop simply continues with the next day (there is no retry).
Returns the final store and the ordered list of days attempted. -/
def runFetchLoop (fetchResult : Int → Except String (List ESPNEvent))
    (days : List Int) (s : DBState) : DBState × List Int :=
  days.foldl
    (fun (acc : DBState × List Int) d =>
      let attempts := acc.2 ++ [d]
      match fetchResult d with
      | Except.ok events =>
        (if events.length > 0 then storeEvents events acc.1 else acc.1, attempts)
      | Except.error _ => (acc.1, attempts))
    (s, [])

/-- `fetchPastGames`: enumerate the gap days from the stored high-water mark
and run the per-day fetch loop over them. -/
def fetchPastGames (fetchResult : Int → Except String (List ESPNEvent))
    (now : Int) (s : DBState) : DBState × List Int :=
  runFetchLoop fetchResult (backfillDays (getLatestMatchDate s) now) s

/-! ### Concrete feed data used to evaluate the claims -/

/-- A detail athlete with the given player and team ids. -/
def mkAth (pid tid : String) : ESPNAthlete :=
  { id := pid, displayName := pid, position := none
    team := some { id := tid }, value := none, stat := none, displayValue := none }

/-- A scoring-play detail by one athlete, optionally flagged as an own goal. -/
def mkGoalDetail (pid tid : String) (og : Bool) : ESPNEventDetail :=
  { team := none, scoringPlay := true, redCard := false, yellowCard := false
    penaltyKick := false, ownGoal := og, athletesInvolved := some [mkAth pid tid] }

/-- A completed two-competitor event with the given scores and details. -/
def mkCompletedEvent (eid : String) (seasonType : Int) (slug : String)
    (homeScore awayScore : Option String) (dets : List ESPNEventDetail) : ESPNEvent :=
  { id := eid, date := 0
    season := some { type := some seasonType, slug := some slug }
    competitions := [
      { status := some { type := { state := "post", completed := true } }
        venue := none
        competitors := [
          { homeAway := "home", score := homeScore
            team := { id := "h1", displayName := "Home FC", abbreviation := "HFC", logo := "h.png" }
            statistics := none },
          { homeAway := "away", score := awayScore
            team := { id := "a1", displayName := "Away FC", abbreviation := "AFC", logo := "a.png" }
            statistics := none }]
        details := some dets
        odds := [] }] }

/-- The event of the double-ingestion check: one clean goal by player p1. -/
def eventC1 : ESPNEvent :=
  mkCompletedEvent "evC1" 11 "2025-26-english-premier-league"
    (some "2") (some "1") [mkGoalDetail "p1" "h1" false]

/-- The end-to-end event: home 2 (one clean goal by pA, one own goal by the
away player pB), away 1 (an own goal by the home player pC), completed. -/
def eventC7 : ESPNEvent :=
  mkCompletedEvent "evC7" 7 "2025-26-english-premier-league"
    (some "2") (some "1")
    [mkGoalDetail "pA" "h1" false, mkGoalDetail "pB" "a1" true, mkGoalDetail "pC" "h1" true]

/-- The re-ingestion pair: the same external event, first with one clean goal
by p1, then a version where p1 has two clean goals. -/
def eventC4 (dets : List ESPNEventDetail) : ESPNEvent :=
  mkCompletedEvent "evC4" 4 "spanish-la-liga" (some "2") (some "0") dets

/-- A completed event whose competitors both report the score string "0". -/
def eventC9 : ESPNEvent :=
  mkCompletedEvent "evC9" 9 "spanish-la-liga" (some "0") (some "0") []

/-- An event with two competitors, neither tagged home nor away. -/
def eventC5 : ESPNEvent :=
  { id := "evC5", date := 0
    season := some { type := some 5, slug := some "german-bundesliga" }
    competitions := [
      { status := none
        venue := none
        competitors := [
          { homeAway := "tbd", score := none
            team := { id := "t1", displayName := "T1", abbreviation := "T1", logo := "1.png" }
            statistics := none },
          { homeAway := "tbd", score := none
            team := { id := "t2", displayName := "T2", abbreviation := "T2", logo := "2.png" }
            statistics := none }]
        details := none
        odds := [] }] }

/-- A store holding one completed match between teams 1 and 2 whose scores
are null (as a feed event without score strings produces). -/
def dbNullScoreMatch : DBState :=
  { emptyDB with
    matchRows := [
      { id := 1, espnEventId := "mNull", leagueId := none, homeTeamId := 1
        awayTeamId := 2, date := 0, venue := none, status := "completed"
        homeScore := none, awayScore := none }]
    nextMatchId := 2 }

/-- A store whose latest match date is three calendar days before day 100. -/
def dbLatestDay97 : DBState :=
  { emptyDB with
    matchRows := [
      { id := 1, espnEventId := "mOld", leagueId := none, homeTeamId := 1
        awayTeamId := 2, date := 97 * msPerDay + 3600000, venue := none
        status := "completed", homeScore := some 1, awayScore := some 0 }]
    nextMatchId := 2 }

/-- A feed that fails with a transient server error on day 98 and returns an
empty scoreboard on every other day. -/
def failingFeed : Int → Except String (List ESPNEvent) :=
  fun d => if d == 98 * msPerDay then Except.error "HTTP 500" else Except.ok []

/-! ### Observation functions for the card-crediting claim -/

/-- Sum of one statistic over the player statistics map. -/
def sumBy (g : PStat → ℚ) (m : PStatMap) : ℚ :=
  (m.map (fun kv => g kv.2)).sum

/-- Total yellow cards accumulated in the map. -/
def sumYellow (m : PStatMap) : ℚ := sumBy (fun p => p.yellowCards) m

/-- Total red cards accumulated in the map. -/
def sumRed (m : PStatMap) : ℚ := sumBy (fun p => p.redCards) m

/-- How many involved athletes of a detail resolve to a competitor team
(non-empty athlete id, non-empty team id, team id found among the
competitors). -/
def resolvableCount (competitors : List ESPNCompetitor) (d : ESPNEventDetail) : Nat :=
  (d.athletesInvolved.getD []).countP
    (fun a => (resolveAthleteCompetitor competitors a).isSome)

/-- Concrete competitors for the card-crediting witness. -/
def competitorsW : List ESPNCompetitor :=
  [{ homeAway := "home", score := some "1"
     team := { id := "h1", displayName := "Home FC", abbreviation := "HFC", logo := "h.png" }
     statistics := none },
   { homeAway := "away", score := some "0"
     team := { id := "a1", displayName := "Away FC", abbreviation := "AFC", logo := "a.png" }
     statistics := none }]

/-- A yellow-card detail involving two resolvable home athletes. -/
def detailW : ESPNEventDetail :=
  { team := some { id := "h1" }, scoringPlay := false, redCard := false
    yellowCard := true, penaltyKick := false, ownGoal := false
    athletesInvolved := some [mkAth "pX" "h1", mkAth "pY" "h1"] }

/-! ### Theorems -/

/-- C1: evaluating the double ingestion of one event. The match row is
unique, the appearance row and the per-player statistics row are not
doubled — but `insertMatchStatistics` is a plain insert, so the second
ingestion adds a second team-level statistics row per (match, team): the
store ends with two rows for each side instead of one. This is the
internally-flagged known bug of the source (insert-only MatchStatistics). -/
theorem storeEvent_twice_duplicates_team_statistics :
    (storeEvent eventC1 (storeEvent eventC1 emptyDB)).matchRows.countP
      (fun m => m.espnEventId == "evC1") = 1
    ∧ (storeEvent eventC1 (storeEvent eventC1 emptyDB)).matchPlayers.countP
      (fun r => r.matchId == 1 && r.playerId == 1 && r.teamId == 1) = 1
    ∧ (storeEvent eventC1 (storeEvent eventC1 emptyDB)).playerMatchStats.countP
      (fun r => r.matchId == 1 && r.playerId == 1) = 1
    ∧ (storeEvent eventC1 (storeEvent eventC1 emptyDB)).matchStatistics.countP
      (fun r => r.matchId == 1 && r.teamId == 1) = 2
    ∧ (storeEvent eventC1 (storeEvent eventC1 emptyDB)).matchStatistics.countP
      (fun r => r.matchId == 1 && r.teamId == 2) = 2 := by
  decide

/-- C2: with the latest stored match three calendar days before today
(latest on day 97, now within day 100), the backfill loop enumerates only
days 98 and 99 — today (day 100) is never fetched, because
`daysDiff = ceil((today - start)/day)` equals 2 for the midnight-aligned
dates, although the surrounding code and log messages say "up to today". -/
theorem backfill_omits_today :
    backfillDays (some (97 * msPerDay + 3600000)) (100 * msPerDay + 7200000)
      = [98 * msPerDay, 99 * msPerDay]
    ∧ (100 * msPerDay) ∉ backfillDays (some (97 * msPerDay + 3600000))
        (100 * msPerDay + 7200000) := by
  decide

/-- C7: the end-to-end scenario. The stored match has homeScore 2,
awayScore 1 and status "completed"; exactly one PlayerMatchStats row carries
goals = 1 and it belongs to the clean scorer pA (internal player id 1) —
neither own-goal scorer is credited a goal. -/
theorem storeEvent_end_to_end_scenario :
    (storeEvent eventC7 emptyDB).matchRows.map
      (fun m => (m.espnEventId, m.homeScore, m.awayScore, m.status))
      = [("evC7", some 2, some 1, "completed")]
    ∧ (storeEvent eventC7 emptyDB).playerMatchStats.countP (fun r => r.goals == 1) = 1
    ∧ ((storeEvent eventC7 emptyDB).playerMatchStats.filter
        (fun r => r.goals == 1)).map (fun r => r.playerId) = [1]
    ∧ ((storeEvent eventC7 emptyDB).players.find?
        (fun p => p.espnPlayerId == "pA")).map (fun p => p.id) = some 1 := by
  decide

/-- C3 counterexample: calling upsertLeague twice with the identical input
whose espnLeagueCode is absent inserts a row BOTH times (the stored NULL code
never matches the "" lookup key), leaving two rows, not one. -/
theorem upsertLeague_absent_code_inserts_twice :
    ((upsertLeague { name := "X", slug := none, espnLeagueCode := none }
        (upsertLeague { name := "X", slug := none, espnLeagueCode := none } emptyDB).2).2).leagues.length
      = 2 := by
  decide

/-- C5 counterexample: an event with two competitors but no home/away tags
does perform a database write: the league upsert runs before the home/away
check, so a new League row is inserted and the store changes. -/
theorem storeEvent_no_home_away_still_writes_league :
    storeEvent eventC5 emptyDB ≠ emptyDB
    ∧ (storeEvent eventC5 emptyDB).leagues.length = 1
    ∧ emptyDB.leagues.length = 0 := by
  decide

/-- C9 counterexample: a competitor score string "0" is truthy in JS, so a
completed 0-0 match is stored with homeScore = awayScore = 0 (not null) and
getTeamStats counts it as a draw instead of skipping it. -/
theorem zero_score_stored_as_zero :
    (storeEvent eventC9 emptyDB).matchRows.map (fun m => (m.homeScore, m.awayScore))
      = [(some 0, some 0)]
    ∧ (getTeamStats 1 (storeEvent eventC9 emptyDB)).draws = 1 := by
  decide

/-- C6 counterexample: a transient feed error (HTTP 500 on day 98) does not
trigger any retry: the backfill run of the concrete store attempts day 98
exactly once and moves on to day 99. -/
theorem transient_error_not_retried :
    (fetchPastGames failingFeed (100 * msPerDay + 7200000) dbLatestDay97).2
      = [98 * msPerDay, 99 * msPerDay]
    ∧ ((fetchPastGames failingFeed (100 * msPerDay + 7200000) dbLatestDay97).2.count
        (98 * msPerDay)) = 1 := by
  decide

/-- Helper: a map whose function preserves a predicate preserves the count. -/
theorem countP_map_invariant {α : Type} (f : α → α) (p : α → Bool)
    (h : ∀ x, p (f x) = p x) (l : List α) :
    (l.map f).countP p = l.countP p := by
  induction l with
  | nil => rfl
  | cons a l ih =>
    rw [List.map_cons, List.countP_cons, List.countP_cons, ih, h]

/-- Helper: a map whose function preserves a predicate maps the first hit. -/
theorem find?_map_invariant {α : Type} (f : α → α) (p : α → Bool)
    (h : ∀ x, p (f x) = p x) (l : List α) (a : α) (hf : l.find? p = some a) :
    (l.map f).find? p = some (f a) := by
  induction l with
  | nil => simp at hf
  | cons b l ih =>
    by_cases hb : p b
    · rw [List.find?_cons_of_pos _ hb] at hf
      injection hf with hba
      subst hba
      have hb2 : p (f b) = true := by rw [h]; exact hb
      rw [List.map_cons, List.find?_cons_of_pos _ hb2]
    · rw [List.find?_cons_of_neg _ hb] at hf
      have hb2 : ¬p (f b) = true := by rw [h]; exact hb
      rw [List.map_cons, List.find?_cons_of_neg _ hb2]
      exact ih hf

/-- Helper: a map which is the identity on predicate hits and preserves the
predicate leaves the filtered list unchanged. -/
theorem filter_map_id_on {α : Type} (f : α → α) (p : α → Bool)
    (hp : ∀ x, p (f x) = p x) (hid : ∀ x, p x = true → f x = x) (l : List α) :
    (l.map f).filter p = l.filter p := by
  induction l with
  | nil => rfl
  | cons a l ih =>
    by_cases ha : p a
    · rw [List.map_cons, List.filter_cons_of_pos (by rw [hp]; exact ha),
          List.filter_cons_of_pos ha, hid a ha, ih]
    · rw [List.map_cons, List.filter_cons_of_neg (by rw [hp]; exact ha),
          List.filter_cons_of_neg ha, ih]

/-- Helper: a zero predicate count forces find? to fail. -/
theorem find?_of_countP_zero {α : Type} (p : α → Bool) (l : List α)
    (h : l.countP p = 0) : l.find? p = none :=
  List.find?_eq_none.mpr (List.countP_eq_zero.mp h)

/-- Helper: upsertTeam with no existing row appends exactly one new row. -/
theorem upsertTeam_teams_insert (d : TeamData) (s : DBState)
    (hfind : s.teams.find? (fun t => t.espnTeamId == d.espnTeamId) = none) :
    ((upsertTeam d s).2).teams
      = s.teams ++ [{ id := s.nextTeamId, espnTeamId := d.espnTeamId, name := d.name
                      abbreviation := d.abbreviation, logoUrl := d.logoUrl }] := by
  unfold upsertTeam
  rw [hfind]

/-- Helper: upsertTeam's update branch does not change how many rows carry
the key. -/
theorem upsertTeam_countP_found (d : TeamData) (s : DBState) (t0 : TeamRow)
    (hfind : s.teams.find? (fun t => t.espnTeamId == d.espnTeamId) = some t0) :
    ((upsertTeam d s).2).teams.countP (fun t => t.espnTeamId == d.espnTeamId)
      = s.teams.countP (fun t => t.espnTeamId == d.espnTeamId) := by
  unfold upsertTeam
  rw [hfind]
  exact countP_map_invariant _ _
    (fun x => by
      by_cases hx : x.espnTeamId == d.espnTeamId
      · simp [hx, teamUpdateFields]
      · simp [hx])
    s.teams

/-- Helper: upsertPlayer with no existing row appends exactly one new row. -/
theorem upsertPlayer_players_insert (d : PlayerData) (s : DBState)
    (hfind : s.players.find? (fun p => p.espnPlayerId == d.espnPlayerId) = none) :
    ((upsertPlayer d s).2).players
      = s.players ++ [{ id := s.nextPlayerId, espnPlayerId := d.espnPlayerId
                        name := d.name, position := d.position }] := by
  unfold upsertPlayer
  rw [hfind]

/-- Helper: upsertPlayer's update branch does not change how many rows carry
the key. -/
theorem upsertPlayer_countP_found (d : PlayerData) (s : DBState) (p0 : PlayerRow)
    (hfind : s.players.find? (fun p => p.espnPlayerId == d.espnPlayerId) = some p0) :
    ((upsertPlayer d s).2).players.countP (fun p => p.espnPlayerId == d.espnPlayerId)
      = s.players.countP (fun p => p.espnPlayerId == d.espnPlayerId) := by
  unfold upsertPlayer
  rw [hfind]
  exact countP_map_invariant _ _
    (fun x => by
      by_cases hx : x.espnPlayerId == d.espnPlayerId
      · simp [hx, playerUpdateFields]
      · simp [hx])
    s.players

/-- Helper: upsertLeague with a present code and no existing row appends
exactly one new row carrying that code. -/
theorem upsertLeague_leagues_insert (d : LeagueData) (c : String) (s : DBState)
    (hc : d.espnLeagueCode = some c)
    (hfind : s.leagues.find? (fun l => l.espnLeagueCode == some c) = none) :
    ((upsertLeague d s).2).leagues
      = s.leagues ++ [{ id := s.nextLeagueId, name := d.name, slug := d.slug
                        espnLeagueCode := some c }] := by
  unfold upsertLeague
  rw [hc]
  simp only [leagueLookupKey]
  rw [hfind]

/-- Helper: upsertLeague's found branch returns the stored row and leaves the
store untouched. -/
theorem upsertLeague_found (d : LeagueData) (c : String) (row : LeagueRow) (s : DBState)
    (hc : d.espnLeagueCode = some c)
    (hfind : s.leagues.find? (fun l => l.espnLeagueCode == some c) = some row) :
    upsertLeague d s = (row, s) := by
  unfold upsertLeague
  rw [hc]
  simp only [leagueLookupKey]
  rw [hfind]

/-- C3 (amended): upsertTeam and upsertPlayer are idempotent for every input
— starting from a store with no row for the external id, calling them twice
with identical input leaves exactly one row for that id. upsertLeague is
idempotent only when espnLeagueCode is present (for an absent code each call
inserts a fresh row, see the counterexample). -/
theorem upsert_twice_single_row :
    (∀ (d : TeamData) (s : DBState),
       s.teams.countP (fun t => t.espnTeamId == d.espnTeamId) = 0 →
       ((upsertTeam d (upsertTeam d s).2).2).teams.countP
         (fun t => t.espnTeamId == d.espnTeamId) = 1)
    ∧ (∀ (d : PlayerData) (s : DBState),
       s.players.countP (fun p => p.espnPlayerId == d.espnPlayerId) = 0 →
       ((upsertPlayer d (upsertPlayer d s).2).2).players.countP
         (fun p => p.espnPlayerId == d.espnPlayerId) = 1)
    ∧ (∀ (d : LeagueData) (c : String) (s : DBState),
       d.espnLeagueCode = some c →
       s.leagues.countP (fun l => l.espnLeagueCode == some c) = 0 →
       ((upsertLeague d (upsertLeague d s).2).2).leagues.countP
         (fun l => l.espnLeagueCode == some c) = 1) := by
  refine ⟨?_, ?_, ?_⟩
  · intro d s h0
    have hfind : s.teams.find? (fun t => t.espnTeamId == d.espnTeamId) = none :=
      find?_of_countP_zero _ _ h0
    have h1 := upsertTeam_teams_insert d s hfind
    have hrow : (({ id := s.nextTeamId, espnTeamId := d.espnTeamId, name := d.name
                    abbreviation := d.abbreviation, logoUrl := d.logoUrl } : TeamRow).espnTeamId
        == d.espnTeamId) = true := by simp
    have hfind2 : ((upsertTeam d s).2).teams.find? (fun t => t.espnTeamId == d.espnTeamId)
        = some { id := s.nextTeamId, espnTeamId := d.espnTeamId, name := d.name
                 abbreviation := d.abbreviation, logoUrl := d.logoUrl } := by
      simp [h1, hfind, hrow]
    rw [upsertTeam_countP_found d _ _ hfind2, h1, List.countP_append, h0,
        List.countP_cons, hrow]
    rfl
  · intro d s h0
    have hfind : s.players.find? (fun p => p.espnPlayerId == d.espnPlayerId) = none :=
      find?_of_countP_zero _ _ h0
    have h1 := upsertPlayer_players_insert d s hfind
    have hrow : (({ id := s.nextPlayerId, espnPlayerId := d.espnPlayerId, name := d.name
                    position := d.position } : PlayerRow).espnPlayerId
        == d.espnPlayerId) = true := by simp
    have hfind2 : ((upsertPlayer d s).2).players.find?
          (fun p => p.espnPlayerId == d.espnPlayerId)
        = some { id := s.nextPlayerId, espnPlayerId := d.espnPlayerId, name := d.name
                 position := d.position } := by
      simp [h1, hfind, hrow]
    rw [upsertPlayer_countP_found d _ _ hfind2, h1, List.countP_append, h0,
        List.countP_cons, hrow]
    rfl
  · intro d c s hc h0
    have hfind : s.leagues.find? (fun l => l.espnLeagueCode == some c) = none :=
      find?_of_countP_zero _ _ h0
    have h1 := upsertLeague_leagues_insert d c s hc hfind
    have hrow : (({ id := s.nextLeagueId, name := d.name, slug := d.slug
                    espnLeagueCode := some c } : LeagueRow).espnLeagueCode
        == some c) = true := by simp
    have hfind2 : ((upsertLeague d s).2).leagues.find?
          (fun l => l.espnLeagueCode == some c)
        = some { id := s.nextLeagueId, name := d.name, slug := d.slug
                 espnLeagueCode := some c } := by
      simp [h1, hfind, hrow]
    rw [upsertLeague_found d c _ _ hc hfind2, h1, List.countP_append, h0,
        List.countP_cons, hrow]
    rfl

/-- C3 witness: the idempotence theorem applied to concrete inputs on the
empty store. -/
theorem upsert_twice_single_row_witness :
    ((upsertTeam { espnTeamId := "t9", name := "N", abbreviation := none, logoUrl := none }
        (upsertTeam { espnTeamId := "t9", name := "N", abbreviation := none, logoUrl := none }
          emptyDB).2).2).teams.countP (fun t => t.espnTeamId == "t9") = 1
    ∧ ((upsertPlayer { espnPlayerId := "p9", name := "P", position := none }
        (upsertPlayer { espnPlayerId := "p9", name := "P", position := none }
          emptyDB).2).2).players.countP (fun p => p.espnPlayerId == "p9") = 1
    ∧ ((upsertLeague { name := "L", slug := none, espnLeagueCode := some "9" }
        (upsertLeague { name := "L", slug := none, espnLeagueCode := some "9" }
          emptyDB).2).2).leagues.countP (fun l => l.espnLeagueCode == some "9") = 1 :=
  ⟨upsert_twice_single_row.1
      { espnTeamId := "t9", name := "N", abbreviation := none, logoUrl := none }
      emptyDB (by decide),
   upsert_twice_single_row.2.1
      { espnPlayerId := "p9", name := "P", position := none } emptyDB (by decide),
   upsert_twice_single_row.2.2
      { name := "L", slug := none, espnLeagueCode := some "9" } "9" emptyDB rfl (by decide)⟩

/-- C8: write policies of the entity store. A league upsert for an
externalCode already stored returns the stored row unchanged and leaves the
store untouched (first-write-wins, in particular the name is kept); team and
player upserts for a stored externalId overwrite the mutable identity fields
with the newly supplied values (last-write-wins). -/
theorem league_first_write_team_player_last_write :
    (∀ (d : LeagueData) (c : String) (row : LeagueRow) (s : DBState),
       d.espnLeagueCode = some c →
       s.leagues.find? (fun l => l.espnLeagueCode == some c) = some row →
       upsertLeague d s = (row, s))
    ∧ (∀ (d : TeamData) (t0 : TeamRow) (s : DBState) (ab lg : String),
       d.abbreviation = some ab →
       d.logoUrl = some lg →
       s.teams.find? (fun t => t.espnTeamId == d.espnTeamId) = some t0 →
       (upsertTeam d s).1
           = { t0 with name := d.name, abbreviation := some ab, logoUrl := some lg }
       ∧ ((upsertTeam d s).2).teams.find? (fun t => t.espnTeamId == d.espnTeamId)
           = some { t0 with name := d.name, abbreviation := some ab, logoUrl := some lg })
    ∧ (∀ (d : PlayerData) (p0 : PlayerRow) (s : DBState) (pos : String),
       d.position = some pos →
       s.players.find? (fun p => p.espnPlayerId == d.espnPlayerId) = some p0 →
       (upsertPlayer d s).1 = { p0 with name := d.name, position := some pos }
       ∧ ((upsertPlayer d s).2).players.find? (fun p => p.espnPlayerId == d.espnPlayerId)
           = some { p0 with name := d.name, position := some pos }) := by
  refine ⟨?_, ?_, ?_⟩
  · intro d c row s hc hfind
    exact upsertLeague_found d c row s hc hfind
  · intro d t0 s ab lg hab hlg hfind
    have hpres : ∀ x : TeamRow,
        ((if x.espnTeamId == d.espnTeamId then teamUpdateFields d x else x).espnTeamId
          == d.espnTeamId) = (x.espnTeamId == d.espnTeamId) := by
      intro x
      by_cases hx : x.espnTeamId == d.espnTeamId
      · simp [hx, teamUpdateFields]
      · simp [hx]
    have hp : (t0.espnTeamId == d.espnTeamId) = true := by
      have h := List.find?_some hfind
      simpa using h
    constructor
    · unfold upsertTeam
      rw [hfind]
      simp [teamUpdateFields, setOrKeep, hab, hlg]
    · unfold upsertTeam
      rw [hfind]
      have hmap := find?_map_invariant
        (fun t => if t.espnTeamId == d.espnTeamId then teamUpdateFields d t else t)
        (fun t => t.espnTeamId == d.espnTeamId) hpres s.teams t0 hfind
      rw [hmap]
      simp [hp, teamUpdateFields, setOrKeep, hab, hlg]
  · intro d p0 s pos hpos hfind
    have hpres : ∀ x : PlayerRow,
        ((if x.espnPlayerId == d.espnPlayerId then playerUpdateFields d x else x).espnPlayerId
          == d.espnPlayerId) = (x.espnPlayerId == d.espnPlayerId) := by
      intro x
      by_cases hx : x.espnPlayerId == d.espnPlayerId
      · simp [hx, playerUpdateFields]
      · simp [hx]
    have hp : (p0.espnPlayerId == d.espnPlayerId) = true := by
      have h := List.find?_some hfind
      simpa using h
    constructor
    · unfold upsertPlayer
      rw [hfind]
      simp [playerUpdateFields, setOrKeep, hpos]
    · unfold upsertPlayer
      rw [hfind]
      have hmap := find?_map_invariant
        (fun p => if p.espnPlayerId == d.espnPlayerId then playerUpdateFields d p else p)
        (fun p => p.espnPlayerId == d.espnPlayerId) hpres s.players p0 hfind
      rw [hmap]
      simp [hp, playerUpdateFields, setOrKeep, hpos]

/-- C8 witness: the write-policy theorem applied at concrete stores holding
one league (code "c1"), one team ("t1") and one player ("p1"). -/
theorem league_first_write_team_player_last_write_witness :
    upsertLeague { name := "New Name", slug := none, espnLeagueCode := some "c1" }
        { emptyDB with
          leagues := [{ id := 1, name := "Old Name", slug := none, espnLeagueCode := some "c1" }]
          nextLeagueId := 2 }
      = ({ id := 1, name := "Old Name", slug := none, espnLeagueCode := some "c1" },
         { emptyDB with
           leagues := [{ id := 1, name := "Old Name", slug := none, espnLeagueCode := some "c1" }]
           nextLeagueId := 2 })
    ∧ ((upsertTeam { espnTeamId := "t1", name := "New T", abbreviation := some "NT", logoUrl := some "n.png" }
          { emptyDB with
            teams := [{ id := 1, espnTeamId := "t1", name := "Old T", abbreviation := some "OT", logoUrl := some "o.png" }]
            nextTeamId := 2 }).1
        = { id := 1, espnTeamId := "t1", name := "New T", abbreviation := some "NT", logoUrl := some "n.png" }
      ∧ ((upsertTeam { espnTeamId := "t1", name := "New T", abbreviation := some "NT", logoUrl := some "n.png" }
          { emptyDB with
            teams := [{ id := 1, espnTeamId := "t1", name := "Old T", abbreviation := some "OT", logoUrl := some "o.png" }]
            nextTeamId := 2 }).2).teams.find? (fun t => t.espnTeamId == "t1")
        = some { id := 1, espnTeamId := "t1", name := "New T", abbreviation := some "NT", logoUrl := some "n.png" })
    ∧ ((upsertPlayer { espnPlayerId := "p1", name := "New P", position := some "GK" }
          { emptyDB with
            players := [{ id := 1, espnPlayerId := "p1", name := "Old P", position := some "ST" }]
            nextPlayerId := 2 }).1
        = { id := 1, espnPlayerId := "p1", name := "New P", position := some "GK" }
      ∧ ((upsertPlayer { espnPlayerId := "p1", name := "New P", position := some "GK" }
          { emptyDB with
            players := [{ id := 1, espnPlayerId := "p1", name := "Old P", position := some "ST" }]
            nextPlayerId := 2 }).2).players.find? (fun p => p.espnPlayerId == "p1")
        = some { id := 1, espnPlayerId := "p1", name := "New P", position := some "GK" }) :=
  ⟨league_first_write_team_player_last_write.1
      { name := "New Name", slug := none, espnLeagueCode := some "c1" } "c1"
      { id := 1, name := "Old Name", slug := none, espnLeagueCode := some "c1" }
      { emptyDB with
        leagues := [{ id := 1, name := "Old Name", slug := none, espnLeagueCode := some "c1" }]
        nextLeagueId := 2 } rfl (by decide),
   league_first_write_team_player_last_write.2.1
      { espnTeamId := "t1", name := "New T", abbreviation := some "NT", logoUrl := some "n.png" }
      { id := 1, espnTeamId := "t1", name := "Old T", abbreviation := some "OT", logoUrl := some "o.png" }
      { emptyDB with
        teams := [{ id := 1, espnTeamId := "t1", name := "Old T", abbreviation := some "OT", logoUrl := some "o.png" }]
        nextTeamId := 2 } "NT" "n.png" rfl rfl (by decide),
   league_first_write_team_player_last_write.2.2
      { espnPlayerId := "p1", name := "New P", position := some "GK" }
      { id := 1, espnPlayerId := "p1", name := "Old P", position := some "ST" }
      { emptyDB with
        players := [{ id := 1, espnPlayerId := "p1", name := "Old P", position := some "ST" }]
        nextPlayerId := 2 } "GK" rfl (by decide)⟩

/-- Helper: upsertLeague writes nothing outside the leagues table. -/
theorem upsertLeague_only_leagues (d : LeagueData) (s : DBState) :
    ((upsertLeague d s).2).teams = s.teams
    ∧ ((upsertLeague d s).2).players = s.players
    ∧ ((upsertLeague d s).2).matchRows = s.matchRows
    ∧ ((upsertLeague d s).2).matchPlayers = s.matchPlayers
    ∧ ((upsertLeague d s).2).matchOdds = s.matchOdds
    ∧ ((upsertLeague d s).2).matchStatistics = s.matchStatistics
    ∧ ((upsertLeague d s).2).playerMatchStats = s.playerMatchStats := by
  unfold upsertLeague
  split
  · exact ⟨rfl, rfl, rfl, rfl, rfl, rfl, rfl⟩
  · exact ⟨rfl, rfl, rfl, rfl, rfl, rfl, rfl⟩

/-- C5 (amended): an event with no competition section or fewer than two
competitors produces zero database writes and does not throw (the store is
returned unchanged); an event with two or more competitors that lack a home
or an away tag is skipped AFTER the league upsert, so every table except
`leagues` is unchanged — but the league write does happen (see the
counterexample for a store it changes). -/
theorem storeEvent_incomplete_event_effects :
    (∀ (eid : String) (edate : Int) (eseason : Option ESPNSeason) (s : DBState),
       storeEvent { id := eid, date := edate, season := eseason, competitions := [] } s = s)
    ∧ (∀ (eid : String) (edate : Int) (eseason : Option ESPNSeason)
         (c : ESPNCompetition) (cs : List ESPNCompetition) (s : DBState),
       c.competitors.length < 2 →
       storeEvent { id := eid, date := edate, season := eseason
                    competitions := c :: cs } s = s)
    ∧ (∀ (eid : String) (edate : Int) (eseason : Option ESPNSeason)
         (c : ESPNCompetition) (cs : List ESPNCompetition) (s : DBState),
       ¬ c.competitors.length < 2 →
       (c.competitors.find? (fun x => x.homeAway == "home") = none
         ∨ c.competitors.find? (fun x => x.homeAway == "away") = none) →
       (storeEvent { id := eid, date := edate, season := eseason
                     competitions := c :: cs } s).teams = s.teams
       ∧ (storeEvent { id := eid, date := edate, season := eseason
                       competitions := c :: cs } s).players = s.players
       ∧ (storeEvent { id := eid, date := edate, season := eseason
                       competitions := c :: cs } s).matchRows = s.matchRows
       ∧ (storeEvent { id := eid, date := edate, season := eseason
                       competitions := c :: cs } s).matchPlayers = s.matchPlayers
       ∧ (storeEvent { id := eid, date := edate, season := eseason
                       competitions := c :: cs } s).matchOdds = s.matchOdds
       ∧ (storeEvent { id := eid, date := edate, season := eseason
                       competitions := c :: cs } s).matchStatistics = s.matchStatistics
       ∧ (storeEvent { id := eid, date := edate, season := eseason
                       competitions := c :: cs } s).playerMatchStats = s.playerMatchStats) := by
  refine ⟨?_, ?_, ?_⟩
  · intro eid edate eseason s
    rfl
  · intro eid edate eseason c cs s h2
    unfold storeEvent
    simp only [if_pos h2]
  · intro eid edate eseason c cs s h2 hha
    unfold storeEvent
    simp only [if_neg h2]
    rcases hha with hh | ha
    · rw [hh]
      exact upsertLeague_only_leagues _ s
    · cases hh : c.competitors.find? (fun x => x.homeAway == "home") with
      | none => exact upsertLeague_only_leagues _ s
      | some hcomp =>
        rw [ha]
        exact upsertLeague_only_leagues _ s

/-- C5 witness: the skip-on-incomplete theorem applied to a no-competition
event, a one-competitor event, and the two-competitor event without
home/away tags, each on the empty store. -/
theorem storeEvent_incomplete_event_effects_witness :
    storeEvent { id := "w1", date := 0, season := none, competitions := [] } emptyDB = emptyDB
    ∧ storeEvent
        { id := "w2", date := 0, season := none
          competitions := [
            { status := none, venue := none
              competitors := [
                { homeAway := "home", score := none
                  team := { id := "x1", displayName := "X", abbreviation := "X", logo := "x" }
                  statistics := none }]
              details := none, odds := [] }] } emptyDB = emptyDB
    ∧ ((storeEvent eventC5 emptyDB).teams = emptyDB.teams
       ∧ (storeEvent eventC5 emptyDB).players = emptyDB.players
       ∧ (storeEvent eventC5 emptyDB).matchRows = emptyDB.matchRows
       ∧ (storeEvent eventC5 emptyDB).matchPlayers = emptyDB.matchPlayers
       ∧ (storeEvent eventC5 emptyDB).matchOdds = emptyDB.matchOdds
       ∧ (storeEvent eventC5 emptyDB).matchStatistics = emptyDB.matchStatistics
       ∧ (storeEvent eventC5 emptyDB).playerMatchStats = emptyDB.playerMatchStats) :=
  ⟨storeEvent_incomplete_event_effects.1 "w1" 0 none emptyDB,
   storeEvent_incomplete_event_effects.2.1 "w2" 0 none
     { status := none, venue := none
       competitors := [
         { homeAway := "home", score := none
           team := { id := "x1", displayName := "X", abbreviation := "X", logo := "x" }
           statistics := none }]
       details := none, odds := [] } [] emptyDB (by decide),
   storeEvent_incomplete_event_effects.2.2 "evC5" 0
     (some { type := some 5, slug := some "german-bundesliga" })
     { status := none, venue := none
       competitors := [
         { homeAway := "tbd", score := none
           team := { id := "t1", displayName := "T1", abbreviation := "T1", logo := "1.png" }
           statistics := none },
         { homeAway := "tbd", score := none
           team := { id := "t2", displayName := "T2", abbreviation := "T2", logo := "2.png" }
           statistics := none }]
       details := none, odds := [] } [] emptyDB (by decide) (Or.inl (by decide))⟩

/-- Helper: the fetch loop appends each processed day to the attempt list
exactly once, whatever the fetch results are. -/
theorem runFetchLoop_attempts_aux
    (fetchResult : Int → Except String (List ESPNEvent)) (days : List Int) :
    ∀ (s : DBState) (acc : List Int),
      (days.foldl
        (fun (acc : DBState × List Int) d =>
          let attempts := acc.2 ++ [d]
          match fetchResult d with
          | Except.ok events =>
            (if events.length > 0 then storeEvents events acc.1 else acc.1, attempts)
          | Except.error _ => (acc.1, attempts))
        (s, acc)).2 = acc ++ days := by
  induction days with
  | nil =>
    intro s acc
    simp
  | cons d ds ih =>
    intro s acc
    simp only [List.foldl_cons]
    cases hf : fetchResult d with
    | ok events =>
      simp only [hf]
      rw [ih]
      simp
    | error msg =>
      simp only [hf]
      rw [ih]
      simp

/-- C6 (amended): every enumerated backfill day is fetched exactly once, in
order — a transient feed error makes the loop abandon that single day at its
first and only attempt (logged, no retry, no backoff) and proceed with the
next day, so the attempted-day list always equals the enumerated-day list no
matter which fetches fail. -/
theorem fetch_loop_no_retry_one_attempt_per_day
    (fetchResult : Int → Except String (List ESPNEvent)) (days : List Int) (s : DBState) :
    (runFetchLoop fetchResult days s).2 = days := by
  simpa using runFetchLoop_attempts_aux fetchResult days s []

/-- Helper: upserting one map entry for a different player leaves the other
player's filtered rows unchanged. -/
theorem pms_step_preserves_other (mid p : Nat) (v : PStat) (s : DBState)
    (hne : v.playerId ≠ p) :
    ((upsertPlayerMatchStats (pmsDataOf mid v) s).2).playerMatchStats.filter
        (fun r => r.matchId == mid && r.playerId == p)
      = s.playerMatchStats.filter (fun r => r.matchId == mid && r.playerId == p) := by
  unfold upsertPlayerMatchStats
  split
  · apply filter_map_id_on
    · intro x
      by_cases hx : (x.matchId == (pmsDataOf mid v).matchId
          && x.playerId == (pmsDataOf mid v).playerId) = true
      · simp only [hx, if_true]
        simp [pmsUpdateFields]
      · simp [hx]
    · intro x hxp
      have hxq : (x.matchId == (pmsDataOf mid v).matchId
          && x.playerId == (pmsDataOf mid v).playerId) = false := by
        simp only [pmsDataOf]
        simp only [Bool.and_eq_true, beq_iff_eq] at hxp
        simp [hxp.1, hxp.2, hne.symm]
      simp [hxq]
  · rw [List.filter_append,
        List.filter_cons_of_neg (by simp [pmsDataOf, hne]),
        List.filter_nil, List.append_nil]

/-- Helper: upserting one map entry into a store with no row for that
(match, player) inserts exactly one fresh row carrying the entry's values. -/
theorem pms_step_inserts_self (mid : Nat) (v : PStat) (s : DBState)
    (hempty : s.playerMatchStats.filter
        (fun r => r.matchId == mid && r.playerId == v.playerId) = []) :
    (((upsertPlayerMatchStats (pmsDataOf mid v) s).2).playerMatchStats.filter
        (fun r => r.matchId == mid && r.playerId == v.playerId)).map (fun r => r.goals)
      = [v.goals] := by
  have hfind : s.playerMatchStats.find? (fun r =>
      r.matchId == (pmsDataOf mid v).matchId
        && r.playerId == (pmsDataOf mid v).playerId) = none := by
    rw [List.find?_eq_none]
    intro x hx
    have hnx := List.filter_eq_nil_iff.mp hempty x hx
    simpa [pmsDataOf] using hnx
  unfold upsertPlayerMatchStats
  rw [hfind, List.filter_append, hempty,
      List.filter_cons_of_pos (by simp [pmsDataOf]), List.filter_nil]
  simp [pmsDataOf]

/-- Helper: the insert fold leaves a player's filtered rows unchanged when no
map entry belongs to that player. -/
theorem pms_fold_preserves_other (mid p : Nat) :
    ∀ (pmap : PStatMap) (s : DBState),
      (∀ kv ∈ pmap, (kv.2).playerId ≠ p) →
      ((pmap.foldl (fun s kv => (upsertPlayerMatchStats (pmsDataOf mid kv.2) s).2) s).playerMatchStats.filter
          (fun r => r.matchId == mid && r.playerId == p))
        = s.playerMatchStats.filter (fun r => r.matchId == mid && r.playerId == p) := by
  intro pmap
  induction pmap with
  | nil =>
    intro s _
    rfl
  | cons kv rest ih =>
    intro s h
    simp only [List.foldl_cons]
    rw [ih _ (fun x hx => h x (List.mem_cons_of_mem _ hx)),
        pms_step_preserves_other mid p kv.2 s (h kv (List.mem_cons_self _ _))]

/-- Helper: the insert fold writes exactly one row for a player present in
the map, carrying that entry's goals, whenever the store holds no row for
the (match, player) yet. -/
theorem pms_fold_writes_self (mid p : Nat) (st : PStat) :
    ∀ (pmap : PStatMap) (s : DBState),
      (p, st) ∈ pmap →
      (∀ kv ∈ pmap, (kv.2).playerId = kv.1) →
      (pmap.map Prod.fst).Nodup →
      s.playerMatchStats.filter (fun r => r.matchId == mid && r.playerId == p) = [] →
      (((pmap.foldl (fun s kv => (upsertPlayerMatchStats (pmsDataOf mid kv.2) s).2) s).playerMatchStats.filter
          (fun r => r.matchId == mid && r.playerId == p)).map (fun r => r.goals))
        = [st.goals] := by
  intro pmap
  induction pmap with
  | nil =>
    intro s hmem
    simp at hmem
  | cons kv rest ih =>
    intro s hmem hcons hnodup hempty
    simp only [List.foldl_cons]
    rcases List.mem_cons.mp hmem with heq | hmemr
    · obtain ⟨k, v⟩ := kv
      cases heq
      have hpid : st.playerId = p := hcons (p, st) (List.mem_cons_self _ _)
      have hnd : p ∉ rest.map Prod.fst := by
        have h := hnodup
        simp only [List.map_cons, List.nodup_cons] at h
        exact h.1
      have hkeys : ∀ kv ∈ rest, (kv.2).playerId ≠ p := by
        intro kv hkv hcontra
        apply hnd
        have h1 : (kv.2).playerId = kv.1 := hcons kv (List.mem_cons_of_mem _ hkv)
        have h2 : kv.1 = p := by rw [← h1, hcontra]
        rw [← h2]
        exact List.mem_map_of_mem Prod.fst hkv
      have hempty2 : s.playerMatchStats.filter
          (fun r => r.matchId == mid && r.playerId == st.playerId) = [] := by
        rw [hpid]
        exact hempty
      have hstep := pms_step_inserts_self mid st s hempty2
      rw [pms_fold_preserves_other mid p rest _ hkeys]
      rw [← hpid]
      exact hstep
    · have h1 : (kv.2).playerId = kv.1 := hcons kv (List.mem_cons_self _ _)
      have hinr : p ∈ rest.map Prod.fst := by
        have h := List.mem_map_of_mem Prod.fst hmemr
        simpa using h
      have hnd : kv.1 ∉ rest.map Prod.fst := by
        have h := hnodup
        simp only [List.map_cons, List.nodup_cons] at h
        exact h.1
      have hne : (kv.2).playerId ≠ p := by
        rw [h1]
        intro hcontra
        rw [hcontra] at hnd
        exact hnd hinr
      refine ih _ hmemr (fun x hx => hcons x (List.mem_cons_of_mem _ hx)) ?_ ?_
      · have h := hnodup
        simp only [List.map_cons, List.nodup_cons] at h
        exact h.2
      · rw [pms_step_preserves_other mid p kv.2 s hne]
        exact hempty

attribute [local semireducible] Rat.add in
/-- C4: per-match player statistics are replaced, never accumulated. The
final phase of storeEvent first deletes every PlayerMatchStats row of the
match and then inserts fresh rows from the map derived from the current
event alone, so for any prior store contents the stored goals of a
(match, player) equal exactly the freshly derived value. Concretely:
ingesting the event once yields goals = 1 for player p1; re-ingesting the
version in which p1's derivable goals are 2 leaves the row at goals = 2,
not 3. (Rat.add is semireducible here so the concrete tallies evaluate
inside decide.) -/
theorem player_match_stats_replaced_on_reingest :
    (∀ (s : DBState) (mid : Nat) (pmap : PStatMap) (p : Nat) (st : PStat),
       (pmap.map Prod.fst).Nodup →
       (∀ kv ∈ pmap, (kv.2).playerId = kv.1) →
       (p, st) ∈ pmap →
       (((storePlayerStatsPhase mid pmap s).playerMatchStats.filter
           (fun r => r.matchId == mid && r.playerId == p)).map (fun r => r.goals))
         = [st.goals])
    ∧ ((storeEvent (eventC4 [mkGoalDetail "p1" "h1" false]) emptyDB).playerMatchStats.filter
          (fun r => r.matchId == 1 && r.playerId == 1)).map (fun r => r.goals) = [1]
    ∧ ((storeEvent (eventC4 [mkGoalDetail "p1" "h1" false, mkGoalDetail "p1" "h1" false])
          (storeEvent (eventC4 [mkGoalDetail "p1" "h1" false]) emptyDB)).playerMatchStats.filter
          (fun r => r.matchId == 1 && r.playerId == 1)).map (fun r => r.goals) = [2] := by
  refine ⟨?_, by decide, by decide⟩
  intro s mid pmap p st hnodup hcons hmem
  unfold storePlayerStatsPhase
  apply pms_fold_writes_self mid p st pmap _ hmem hcons hnodup
  rw [List.filter_eq_nil_iff]
  intro a ha
  have hm := (List.mem_filter.mp ha).2
  simp only [Bool.not_eq_true', beq_eq_false_iff_ne] at hm
  simp [hm]

/-- C4 witness: the replacement theorem applied to a store already holding a
goals = 1 row for (match 1, player 5) and a map entry deriving goals = 2. -/
theorem player_match_stats_replaced_on_reingest_witness :
    ((storePlayerStatsPhase 1
        [(5, { playerId := 5, teamId := 1, goals := 2, shotsOnTarget := 0, assists := 0
               passes := 0, passesCompleted := 0, tackles := 0, interceptions := 0
               saves := 0, yellowCards := 0, redCards := 0 })]
        { emptyDB with
          playerMatchStats := [
            { id := 1, matchId := 1, playerId := 5, teamId := 1, goals := 1
              shotsOnTarget := 0, assists := 0, passes := 0, passesCompleted := 0
              tackles := 0, interceptions := 0, saves := 0, yellowCards := 0
              redCards := 0 }]
          nextPlayerMatchStatsId := 2 }).playerMatchStats.filter
        (fun r => r.matchId == 1 && r.playerId == 5)).map (fun r => r.goals) = [2] :=
  player_match_stats_replaced_on_reingest.1
    { emptyDB with
      playerMatchStats := [
        { id := 1, matchId := 1, playerId := 5, teamId := 1, goals := 1
          shotsOnTarget := 0, assists := 0, passes := 0, passesCompleted := 0
          tackles := 0, interceptions := 0, saves := 0, yellowCards := 0
          redCards := 0 }]
      nextPlayerMatchStatsId := 2 } 1
    [(5, { playerId := 5, teamId := 1, goals := 2, shotsOnTarget := 0, assists := 0
           passes := 0, passesCompleted := 0, tackles := 0, interceptions := 0
           saves := 0, yellowCards := 0, redCards := 0 })] 5
    { playerId := 5, teamId := 1, goals := 2, shotsOnTarget := 0, assists := 0
      passes := 0, passesCompleted := 0, tackles := 0, interceptions := 0
      saves := 0, yellowCards := 0, redCards := 0 }
    (by decide) (by decide) (by decide)

/-- C9 (amended): the score string is parsed whenever it is truthy, i.e.
non-empty — the string "0" is truthy in JS and parses to 0 — and only an
absent or empty score field is stored as null; consequently a completed 0-0
match is stored with homeScore = awayScore = 0 and IS counted (as a draw) by
getTeamStats, whose null-score skip only fires for matches stored with null
scores. -/
theorem score_null_only_when_falsy :
    (∀ str : String, str ≠ "" → parseScore (some str) = parseIntJS str)
    ∧ parseScore (some "") = none
    ∧ parseScore none = none
    ∧ parseScore (some "0") = some 0
    ∧ (getTeamStats 1 (storeEvent eventC9 emptyDB)).wins = 0
    ∧ (getTeamStats 1 (storeEvent eventC9 emptyDB)).draws = 1
    ∧ (getTeamStats 1 (storeEvent eventC9 emptyDB)).losses = 0
    ∧ (getTeamStats 1 dbNullScoreMatch).wins = 0
    ∧ (getTeamStats 1 dbNullScoreMatch).draws = 0
    ∧ (getTeamStats 1 dbNullScoreMatch).losses = 0 := by
  refine ⟨?_, by decide, by decide, by decide, by decide, by decide, by decide,
    by decide, by decide, by decide⟩
  intro str hstr
  unfold parseScore
  have ht : jsTruthyStr (some str) = true := by
    simp [jsTruthyStr, hstr]
  rw [ht]
  rfl

/-- C9 witness: the amended parse rule applied to the concrete score string
"0". -/
theorem score_null_only_when_falsy_witness :
    parseScore (some "0") = parseIntJS "0" :=
  score_null_only_when_falsy.1 "0" (by decide)

/-- Helper: membership test on a consed map entry. -/
theorem pmapHas_cons (e : Nat × PStat) (rest : PStatMap) (k : Nat) :
    pmapHas (e :: rest) k = (e.1 == k || pmapHas rest k) := by
  cases he : (e.1 == k) <;> simp [pmapHas, List.find?_cons, he]

/-- Helper: setting an absent key appends the entry. -/
theorem pmapSet_not_has (m : PStatMap) (k : Nat) (v : PStat) :
    ∀ _ : pmapHas m k = false, pmapSet m k v = m ++ [(k, v)] := by
  induction m with
  | nil => intro _; rfl
  | cons e rest ih =>
    intro h
    rw [pmapHas_cons] at h
    unfold pmapSet
    rw [if_neg (by simp_all), ih (by simp_all)]
    rfl

/-- Helper: setting a key makes it present. -/
theorem pmapHas_pmapSet_self (m : PStatMap) (k : Nat) (v : PStat) :
    pmapHas (pmapSet m k v) k = true := by
  induction m with
  | nil =>
    simp [pmapSet, pmapHas, List.find?_cons]
  | cons e rest ih =>
    unfold pmapSet
    by_cases he : (e.1 == k) = true
    · rw [if_pos he, pmapHas_cons]
      simp
    · rw [if_neg he, pmapHas_cons, ih]
      simp

/-- Helper: the per-statistic sum of a consed map entry. -/
theorem sumBy_cons (g : PStat → ℚ) (e : Nat × PStat) (rest : PStatMap) :
    sumBy g (e :: rest) = g e.2 + sumBy g rest := by
  simp [sumBy]

/-- Helper: the per-statistic sum over an appended map. -/
theorem sumBy_append (g : PStat → ℚ) (m1 m2 : PStatMap) :
    sumBy g (m1 ++ m2) = sumBy g m1 + sumBy g m2 := by
  simp [sumBy]

/-- Helper: an in-place mutation that preserves a statistic preserves its
sum. -/
theorem sumBy_pmapUpdate_pres (g : PStat → ℚ) (f : PStat → PStat)
    (hf : ∀ p, g (f p) = g p) (m : PStatMap) (k : Nat) :
    sumBy g (pmapUpdate m k f) = sumBy g m := by
  induction m with
  | nil => rfl
  | cons e rest ih =>
    unfold pmapUpdate
    by_cases he : (e.1 == k) = true
    · rw [if_pos he, sumBy_cons, sumBy_cons, hf]
    · rw [if_neg he, sumBy_cons, sumBy_cons, ih]

/-- Helper: an in-place mutation adding a constant to a statistic of a
present key adds it to the sum once. -/
theorem sumBy_pmapUpdate_add (g : PStat → ℚ) (f : PStat → PStat) (c : ℚ)
    (hf : ∀ p, g (f p) = g p + c) (m : PStatMap) (k : Nat) :
    ∀ _ : pmapHas m k = true,
      sumBy g (pmapUpdate m k f) = sumBy g m + c := by
  induction m with
  | nil =>
    intro hk
    simp [pmapHas] at hk
  | cons e rest ih =>
    intro hk
    rw [pmapHas_cons] at hk
    unfold pmapUpdate
    by_cases he : (e.1 == k) = true
    · rw [if_pos he, sumBy_cons, sumBy_cons, hf]
      ring
    · rw [if_neg he, sumBy_cons, sumBy_cons, ih (by simp_all)]
      ring

/-- Helper: an in-place mutation does not change which keys are present. -/
theorem pmapHas_pmapUpdate (m : PStatMap) (k j : Nat) (f : PStat → PStat) :
    pmapHas (pmapUpdate m k f) j = pmapHas m j := by
  induction m with
  | nil => rfl
  | cons e rest ih =>
    unfold pmapUpdate
    by_cases he : (e.1 == k) = true
    · rw [if_pos he, pmapHas_cons, pmapHas_cons]
    · rw [if_neg he, pmapHas_cons, pmapHas_cons, ih]

/-- Helper: goal crediting never changes the yellow-card sum. -/
theorem sumYellow_bumpGoal (pid tid : Nat) (m : PStatMap) :
    sumYellow (bumpGoal pid tid m) = sumYellow m := by
  unfold sumYellow bumpGoal
  by_cases h : pmapHas m pid = true
  · rw [if_pos h]
    exact sumBy_pmapUpdate_pres (fun p => p.yellowCards)
      (fun p => { p with goals := p.goals + 1 }) (fun p => rfl) m pid
  · rw [if_neg h, pmapSet_not_has m pid _ (by simp_all), sumBy_append]
    simp [sumBy, zeroPStat]

/-- Helper: goal crediting never changes the red-card sum. -/
theorem sumRed_bumpGoal (pid tid : Nat) (m : PStatMap) :
    sumRed (bumpGoal pid tid m) = sumRed m := by
  unfold sumRed bumpGoal
  by_cases h : pmapHas m pid = true
  · rw [if_pos h]
    exact sumBy_pmapUpdate_pres (fun p => p.redCards)
      (fun p => { p with goals := p.goals + 1 }) (fun p => rfl) m pid
  · rw [if_neg h, pmapSet_not_has m pid _ (by simp_all), sumBy_append]
    simp [sumBy, zeroPStat]

/-- Helper: assist crediting never changes the yellow-card sum. -/
theorem sumYellow_bumpAssist (pid tid : Nat) (m : PStatMap) :
    sumYellow (bumpAssist pid tid m) = sumYellow m := by
  unfold sumYellow bumpAssist
  by_cases h : pmapHas m pid = true
  · rw [if_pos h]
    exact sumBy_pmapUpdate_pres (fun p => p.yellowCards)
      (fun p => { p with assists := p.assists + 1 }) (fun p => rfl) m pid
  · rw [if_neg h, pmapSet_not_has m pid _ (by simp_all), sumBy_append]
    simp [sumBy, zeroPStat]

/-- Helper: assist crediting never changes the red-card sum. -/
theorem sumRed_bumpAssist (pid tid : Nat) (m : PStatMap) :
    sumRed (bumpAssist pid tid m) = sumRed m := by
  unfold sumRed bumpAssist
  by_cases h : pmapHas m pid = true
  · rw [if_pos h]
    exact sumBy_pmapUpdate_pres (fun p => p.redCards)
      (fun p => { p with assists := p.assists + 1 }) (fun p => rfl) m pid
  · rw [if_neg h, pmapSet_not_has m pid _ (by simp_all), sumBy_append]
    simp [sumBy, zeroPStat]

/-- Helper: card crediting adds the yellow flag to the yellow-card sum. -/
theorem sumYellow_bumpPlayerCards (y r : Bool) (pid tid : Nat) (m : PStatMap) :
    sumYellow (bumpPlayerCards y r pid tid m)
      = sumYellow m + (if y then 1 else 0) := by
  unfold sumYellow bumpPlayerCards
  by_cases hyr : (y || r) = true
  · rw [if_pos hyr]
    have h1has : pmapHas
        (if pmapHas m pid = true then m else pmapSet m pid (zeroPStat pid tid)) pid
          = true := by
      by_cases h : pmapHas m pid = true
      · rw [if_pos h]
        exact h
      · rw [if_neg h]
        exact pmapHas_pmapSet_self m pid _
    have h1sum : sumBy (fun p => p.yellowCards)
        (if pmapHas m pid = true then m else pmapSet m pid (zeroPStat pid tid))
          = sumBy (fun p => p.yellowCards) m := by
      by_cases h : pmapHas m pid = true
      · rw [if_pos h]
      · rw [if_neg h, pmapSet_not_has m pid _ (by simp_all), sumBy_append]
        simp [sumBy, zeroPStat]
    cases y <;> cases r <;>
      simp only [Bool.false_eq_true, eq_self_iff_true, if_false, if_true]
    · simp_all
    · rw [sumBy_pmapUpdate_pres (fun p => p.yellowCards)
          (fun p => { p with redCards := p.redCards + 1 }) (fun p => rfl), h1sum]
      simp
    · rw [sumBy_pmapUpdate_add (fun p => p.yellowCards)
          (fun p => { p with yellowCards := p.yellowCards + 1 }) 1 (fun p => rfl)
          _ pid h1has, h1sum]
    · rw [sumBy_pmapUpdate_pres (fun p => p.yellowCards)
          (fun p => { p with redCards := p.redCards + 1 }) (fun p => rfl),
          sumBy_pmapUpdate_add (fun p => p.yellowCards)
          (fun p => { p with yellowCards := p.yellowCards + 1 }) 1 (fun p => rfl)
          _ pid h1has, h1sum]
  · have hy : y = false := by simp_all
    rw [if_neg hyr, hy]
    simp

/-- Helper: card crediting adds the red flag to the red-card sum. -/
theorem sumRed_bumpPlayerCards (y r : Bool) (pid tid : Nat) (m : PStatMap) :
    sumRed (bumpPlayerCards y r pid tid m)
      = sumRed m + (if r then 1 else 0) := by
  unfold sumRed bumpPlayerCards
  by_cases hyr : (y || r) = true
  · rw [if_pos hyr]
    have h1has : pmapHas
        (if pmapHas m pid = true then m else pmapSet m pid (zeroPStat pid tid)) pid
          = true := by
      by_cases h : pmapHas m pid = true
      · rw [if_pos h]
        exact h
      · rw [if_neg h]
        exact pmapHas_pmapSet_self m pid _
    have h1sum : sumBy (fun p => p.redCards)
        (if pmapHas m pid = true then m else pmapSet m pid (zeroPStat pid tid))
          = sumBy (fun p => p.redCards) m := by
      by_cases h : pmapHas m pid = true
      · rw [if_pos h]
      · rw [if_neg h, pmapSet_not_has m pid _ (by simp_all), sumBy_append]
        simp [sumBy, zeroPStat]
    cases y <;> cases r <;>
      simp only [Bool.false_eq_true, eq_self_iff_true, if_false, if_true]
    · simp_all
    · rw [sumBy_pmapUpdate_add (fun p => p.redCards)
          (fun p => { p with redCards := p.redCards + 1 }) 1 (fun p => rfl)
          _ pid h1has, h1sum]
    · rw [sumBy_pmapUpdate_pres (fun p => p.redCards)
          (fun p => { p with yellowCards := p.yellowCards + 1 }) (fun p => rfl), h1sum]
      simp
    · rw [sumBy_pmapUpdate_add (fun p => p.redCards)
          (fun p => { p with redCards := p.redCards + 1 }) 1 (fun p => rfl)
          _ pid (by rw [pmapHas_pmapUpdate]; exact h1has),
          sumBy_pmapUpdate_pres (fun p => p.redCards)
          (fun p => { p with yellowCards := p.yellowCards + 1 }) (fun p => rfl), h1sum]
  · have hr : r = false := by simp_all
    rw [if_neg hyr, hr]
    simp

/-- Helper: one involved athlete adds its yellow flag to the sum exactly when
it resolves to a competitor team. -/
theorem processDetailAthlete_sumYellow (mid hId aId : Nat)
    (competitors : List ESPNCompetitor) (d : ESPNEventDetail) (isGoal : Bool)
    (n i : Nat) (a : ESPNAthlete) (acc : DBState × PStatMap) :
    sumYellow (processDetailAthlete mid hId aId competitors d isGoal n i a acc).2
      = sumYellow acc.2
        + (if (resolveAthleteCompetitor competitors a).isSome
           then (if d.yellowCard then 1 else 0) else 0) := by
  unfold processDetailAthlete
  cases hres : resolveAthleteCompetitor competitors a with
  | none => simp
  | some at2 =>
    simp only [Option.isSome_some, if_true]
    rw [sumYellow_bumpPlayerCards]
    by_cases h2 : (isGoal && i == 1 && decide (n > 1)) = true
    · rw [if_pos h2, sumYellow_bumpAssist]
      by_cases h1 : (isGoal && i == 0) = true
      · rw [if_pos h1, sumYellow_bumpGoal]
      · rw [if_neg h1]
    · rw [if_neg h2]
      by_cases h1 : (isGoal && i == 0) = true
      · rw [if_pos h1, sumYellow_bumpGoal]
      · rw [if_neg h1]

/-- Helper: one involved athlete adds its red flag to the sum exactly when it
resolves to a competitor team. -/
theorem processDetailAthlete_sumRed (mid hId aId : Nat)
    (competitors : List ESPNCompetitor) (d : ESPNEventDetail) (isGoal : Bool)
    (n i : Nat) (a : ESPNAthlete) (acc : DBState × PStatMap) :
    sumRed (processDetailAthlete mid hId aId competitors d isGoal n i a acc).2
      = sumRed acc.2
        + (if (resolveAthleteCompetitor competitors a).isSome
           then (if d.redCard then 1 else 0) else 0) := by
  unfold processDetailAthlete
  cases hres : resolveAthleteCompetitor competitors a with
  | none => simp
  | some at2 =>
    simp only [Option.isSome_some, if_true]
    rw [sumRed_bumpPlayerCards]
    by_cases h2 : (isGoal && i == 1 && decide (n > 1)) = true
    · rw [if_pos h2, sumRed_bumpAssist]
      by_cases h1 : (isGoal && i == 0) = true
      · rw [if_pos h1, sumRed_bumpGoal]
      · rw [if_neg h1]
    · rw [if_neg h2]
      by_cases h1 : (isGoal && i == 0) = true
      · rw [if_pos h1, sumRed_bumpGoal]
      · rw [if_neg h1]

/-- Helper: the fold over the indexed athletes adds the yellow flag once per
resolvable athlete. -/
theorem foldAthletes_sumYellow (mid hId aId : Nat)
    (competitors : List ESPNCompetitor) (d : ESPNEventDetail) (isGoal : Bool) (n : Nat) :
    ∀ (pairs : List (Nat × ESPNAthlete)) (acc : DBState × PStatMap),
      sumYellow (pairs.foldl (fun acc ia =>
          processDetailAthlete mid hId aId competitors d isGoal n ia.1 ia.2 acc) acc).2
        = sumYellow acc.2
          + (if d.yellowCard
             then (pairs.countP
               (fun ia => (resolveAthleteCompetitor competitors ia.2).isSome) : ℚ)
             else 0) := by
  intro pairs
  induction pairs with
  | nil =>
    intro acc
    simp
  | cons ia rest ih =>
    intro acc
    simp only [List.foldl_cons]
    rw [ih, processDetailAthlete_sumYellow, List.countP_cons]
    by_cases hres : (resolveAthleteCompetitor competitors ia.2).isSome = true
    · rw [if_pos hres]
      cases hy : d.yellowCard <;> simp [hres] <;> push_cast <;> ring
    · rw [if_neg hres]
      cases hy : d.yellowCard <;> simp [hres]

/-- Helper: the fold over the indexed athletes adds the red flag once per
resolvable athlete. -/
theorem foldAthletes_sumRed (mid hId aId : Nat)
    (competitors : List ESPNCompetitor) (d : ESPNEventDetail) (isGoal : Bool) (n : Nat) :
    ∀ (pairs : List (Nat × ESPNAthlete)) (acc : DBState × PStatMap),
      sumRed (pairs.foldl (fun acc ia =>
          processDetailAthlete mid hId aId competitors d isGoal n ia.1 ia.2 acc) acc).2
        = sumRed acc.2
          + (if d.redCard
             then (pairs.countP
               (fun ia => (resolveAthleteCompetitor competitors ia.2).isSome) : ℚ)
             else 0) := by
  intro pairs
  induction pairs with
  | nil =>
    intro acc
    simp
  | cons ia rest ih =>
    intro acc
    simp only [List.foldl_cons]
    rw [ih, processDetailAthlete_sumRed, List.countP_cons]
    by_cases hres : (resolveAthleteCompetitor competitors ia.2).isSome = true
    · rw [if_pos hres]
      cases hy : d.redCard <;> simp [hres] <;> push_cast <;> ring
    · rw [if_neg hres]
      cases hy : d.redCard <;> simp [hres]

/-- Helper: counting a property of the elements through their enumeration. -/
theorem countP_enumFrom (q : ESPNAthlete → Bool) :
    ∀ (l : List ESPNAthlete) (n : Nat),
      (List.enumFrom n l).countP (fun ia => q ia.2) = l.countP q := by
  intro l
  induction l with
  | nil =>
    intro n
    rfl
  | cons a rest ih =>
    intro n
    simp only [List.enumFrom_cons, List.countP_cons, ih]

/-- Helper: looking up the updated key maps the stored tally. -/
theorem tcmGet_tcmUpdate_self (k : Nat) (f : TeamCards → TeamCards) (c : TeamCards) :
    ∀ (m : TeamCardsMap) (_ : tcmGet m k = some c),
      tcmGet (tcmUpdate m k f) k = some (f c) := by
  intro m
  induction m with
  | nil =>
    intro h
    simp [tcmGet] at h
  | cons e rest ih =>
    intro h
    unfold tcmUpdate
    by_cases he : (e.1 == k) = true
    · rw [if_pos he]
      unfold tcmGet at h ⊢
      rw [if_pos he] at h
      rw [if_pos he]
      injection h with h2
      rw [h2]
    · rw [if_neg he]
      unfold tcmGet at h ⊢
      rw [if_neg he] at h
      rw [if_neg he]
      exact ih h

/-- Helper: looking up another key is unaffected by the update. -/
theorem tcmGet_tcmUpdate_other (k u : Nat) (f : TeamCards → TeamCards) (hu : u ≠ k) :
    ∀ m : TeamCardsMap, tcmGet (tcmUpdate m k f) u = tcmGet m u := by
  intro m
  induction m with
  | nil => rfl
  | cons e rest ih =>
    unfold tcmUpdate
    by_cases he : (e.1 == k) = true
    · rw [if_pos he]
      have heu : (e.1 == u) = false := by
        have hek : e.1 = k := by simpa using he
        rw [hek]
        simpa using fun h => hu h.symm
      unfold tcmGet
      rw [if_neg (by simp [heu]), if_neg (by simp [heu])]
    · rw [if_neg he]
      unfold tcmGet
      by_cases heu : (e.1 == u) = true
      · rw [if_pos heu, if_pos heu]
      · rw [if_neg heu, if_neg heu]
        exact ih

/-- Helper: the seeded base map holds a zero tally for both teams. -/
theorem tcmGet_cardsBase (hId aId t : Nat) (ht : t = hId ∨ t = aId) :
    tcmGet (cardsBase hId aId) t = some { yellowCards := 0, redCards := 0 } := by
  have hbase : cardsBase hId aId
      = if (hId == aId) = true
        then [(aId, ({ yellowCards := 0, redCards := 0 } : TeamCards))]
        else [(hId, ({ yellowCards := 0, redCards := 0 } : TeamCards)),
              (aId, ({ yellowCards := 0, redCards := 0 } : TeamCards))] := by
    unfold cardsBase
    by_cases hha : (hId == aId) = true
    · simp [tcmSet, hha]
    · simp [tcmSet, hha]
  rw [hbase]
  by_cases hha : (hId == aId) = true
  · have h2 : hId = aId := by simpa using hha
    rw [if_pos hha]
    rcases ht with h | h
    · subst h
      simp [tcmGet, h2]
    · subst h
      simp [tcmGet]
  · rw [if_neg hha]
    rcases ht with h | h
    · subst h
      simp [tcmGet]
    · subst h
      have hne : (hId == t) = false := by simpa using hha
      simp [tcmGet, hne]

/-- Helper: a successful side resolution yields the home or the away id. -/
theorem competitorTeamId_mem (competitors : List ESPNCompetitor) (hId aId t : Nat)
    (tid : String) (h : competitorTeamId competitors hId aId tid = some t) :
    t = hId ∨ t = aId := by
  unfold competitorTeamId at h
  by_cases htid : tid ≠ ""
  · rw [if_pos htid] at h
    cases hf : competitors.find? (fun c => c.team.id == tid) with
    | none =>
      rw [hf] at h
      simp at h
    | some at2 =>
      rw [hf] at h
      injection h with h2
      by_cases hha : (at2.homeAway == "home") = true
      · left
        rw [← h2, if_pos hha]
      · right
        rw [← h2, if_neg hha]
  · rw [if_neg htid] at h
    simp at h

/-- Helper: a successful detail.team resolution yields the home or away id. -/
theorem detailTeamResolution_mem (competitors : List ESPNCompetitor) (hId aId t : Nat)
    (d : ESPNEventDetail)
    (h : detailTeamResolution competitors hId aId d = some t) :
    t = hId ∨ t = aId := by
  unfold detailTeamResolution at h
  split at h
  · exact competitorTeamId_mem competitors hId aId t _ h
  · simp at h

/-- Helper: any successful attribution yields the home or away id. -/
theorem detailCardTeamRaw_mem (competitors : List ESPNCompetitor) (hId aId t : Nat)
    (d : ESPNEventDetail)
    (h : detailCardTeamRaw competitors hId aId d = some t) :
    t = hId ∨ t = aId := by
  unfold detailCardTeamRaw at h
  split at h
  · split at h
    · split at h
      · split at h
        · rename_i u heq
          injection h with h2
          subst h2
          exact competitorTeamId_mem competitors hId aId _ _ heq
        · exact detailTeamResolution_mem competitors hId aId t d h
      · exact detailTeamResolution_mem competitors hId aId t d h
    · exact detailTeamResolution_mem competitors hId aId t d h
  · exact detailTeamResolution_mem competitors hId aId t d h

/-- Helper: a counted card detail is attributed to the home or the away id. -/
theorem detailCardTeam_mem (competitors : List ESPNCompetitor) (hId aId t : Nat)
    (d : ESPNEventDetail) (h : detailCardTeam competitors hId aId d = some t) :
    t = hId ∨ t = aId := by
  unfold detailCardTeam at h
  split at h
  · exact detailCardTeamRaw_mem competitors hId aId t d h
  · simp at h

/-- Helper: the counted team's tally receives one increment per set flag. -/
theorem tcmGet_bumpTeamCards_self (y r : Bool) (t : Nat) (m : TeamCardsMap)
    (c : TeamCards) :
    ∀ _ : tcmGet m t = some c,
      tcmGet (bumpTeamCards y r t m) t
        = some { yellowCards := c.yellowCards + (if y then 1 else 0)
                 redCards := c.redCards + (if r then 1 else 0) } := by
  intro h
  unfold bumpTeamCards
  cases y <;> cases r <;>
    simp only [Bool.false_eq_true, eq_self_iff_true, if_false, if_true]
  · simp [h]
  · rw [tcmGet_tcmUpdate_self t _ c m h]
    simp
  · rw [tcmGet_tcmUpdate_self t _ c m h]
    simp
  · rw [tcmGet_tcmUpdate_self t _ _ _ (tcmGet_tcmUpdate_self t _ c m h)]

/-- Helper: other teams' tallies are untouched by the counted detail. -/
theorem tcmGet_bumpTeamCards_other (y r : Bool) (t u : Nat) (m : TeamCardsMap)
    (hu : u ≠ t) :
    tcmGet (bumpTeamCards y r t m) u = tcmGet m u := by
  unfold bumpTeamCards
  cases y <;> cases r <;>
    simp only [Bool.false_eq_true, eq_self_iff_true, if_false, if_true]
  · rw [tcmGet_tcmUpdate_other t u _ hu]
  · rw [tcmGet_tcmUpdate_other t u _ hu]
  · rw [tcmGet_tcmUpdate_other t u _ hu, tcmGet_tcmUpdate_other t u _ hu]

/-- C10: for every play-by-play detail flagged yellowCard or redCard, the
details pass credits the per-match per-player card count of EVERY involved
athlete that resolves to a competitor team: the total per-player yellow
(resp. red) increments of one detail equal the number of resolvable involved
athletes when the corresponding flag is set. The team-level tally for the
same detail is incremented exactly once per set flag, on the single team the
detail is attributed to (via detail.team with fallback to the first involved
athlete's team, both embedded in detailCardTeam), all other teams' tallies
staying at their seeded values. -/
theorem card_detail_credits_all_involved :
    (∀ (mid hId aId : Nat) (competitors : List ESPNCompetitor)
       (d : ESPNEventDetail) (s : DBState) (pmap : PStatMap),
       sumYellow (processDetail mid hId aId competitors d (s, pmap)).2
         = sumYellow pmap
           + (if d.yellowCard then (resolvableCount competitors d : ℚ) else 0)
       ∧ sumRed (processDetail mid hId aId competitors d (s, pmap)).2
         = sumRed pmap
           + (if d.redCard then (resolvableCount competitors d : ℚ) else 0))
    ∧ (∀ (hId aId : Nat) (competitors : List ESPNCompetitor)
       (d : ESPNEventDetail) (t : Nat),
       (d.yellowCard || d.redCard) = true →
       detailCardTeam competitors hId aId d = some t →
       tcmGet (countTeamCards competitors hId aId [d]) t
           = some { yellowCards := if d.yellowCard then 1 else 0
                    redCards := if d.redCard then 1 else 0 }
       ∧ ∀ u, u ≠ t → tcmGet (countTeamCards competitors hId aId [d]) u
           = tcmGet (cardsBase hId aId) u) := by
  constructor
  · intro mid hId aId competitors d s pmap
    constructor
    · cases hai : d.athletesInvolved with
      | none =>
        simp only [processDetail, hai]
        simp [resolvableCount, hai]
      | some involved =>
        simp only [processDetail, hai]
        rw [foldAthletes_sumYellow]
        unfold resolvableCount
        rw [hai]
        simp [List.enum]
        rw [countP_enumFrom (fun a => (resolveAthleteCompetitor competitors a).isSome)
          involved 0]
    · cases hai : d.athletesInvolved with
      | none =>
        simp only [processDetail, hai]
        simp [resolvableCount, hai]
      | some involved =>
        simp only [processDetail, hai]
        rw [foldAthletes_sumRed]
        unfold resolvableCount
        rw [hai]
        simp [List.enum]
        rw [countP_enumFrom (fun a => (resolveAthleteCompetitor competitors a).isSome)
          involved 0]
  · intro hId aId competitors d t hflags hd
    have hmem := detailCardTeam_mem competitors hId aId t d hd
    have hguard : (!d.yellowCard && !d.redCard) = false := by
      cases hy : d.yellowCard <;> cases hr : d.redCard <;> simp_all
    constructor
    · unfold countTeamCards
      simp only [List.foldl_cons, List.foldl_nil, hguard, Bool.false_eq_true,
        if_false, hd]
      rw [tcmGet_bumpTeamCards_self _ _ _ _ _ (tcmGet_cardsBase hId aId t hmem)]
      simp
    · intro u hu
      unfold countTeamCards
      simp only [List.foldl_cons, List.foldl_nil, hguard, Bool.false_eq_true,
        if_false, hd]
      exact tcmGet_bumpTeamCards_other _ _ _ _ _ hu

/-- C10 witness: the card-crediting theorem applied to a yellow-card detail
with two resolvable involved athletes, attributed to the home team (id 1). -/
theorem card_detail_credits_all_involved_witness :
    (sumYellow (processDetail 7 1 2 competitorsW detailW (emptyDB, [])).2
       = sumYellow []
         + (if detailW.yellowCard then (resolvableCount competitorsW detailW : ℚ) else 0)
     ∧ sumRed (processDetail 7 1 2 competitorsW detailW (emptyDB, [])).2
       = sumRed []
         + (if detailW.redCard then (resolvableCount competitorsW detailW : ℚ) else 0))
    ∧ (tcmGet (countTeamCards competitorsW 1 2 [detailW]) 1
         = some { yellowCards := if detailW.yellowCard then 1 else 0
                  redCards := if detailW.redCard then 1 else 0 }
       ∧ ∀ u, u ≠ 1 → tcmGet (countTeamCards competitorsW 1 2 [detailW]) u
           = tcmGet (cardsBase 1 2) u) :=
  ⟨card_detail_credits_all_involved.1 7 1 2 competitorsW detailW emptyDB [],
   card_detail_credits_all_involved.2 1 2 competitorsW detailW 1 (by decide) (by decide)⟩
